import Mathlib

/-!
Verification development for the automatic data-quality check pipeline
(`automatic_dq_rules.py` and `run_automatic_dq_checks.py`).

The Python code is shallowly embedded:
* column metadata, test dictionaries and result dictionaries become Lean
  structures;
* `generate_rules_for_table` becomes a pure Lean function; the single use of
  the wall clock inside it (`datetime.now().year` in the YEAR range rule)
  becomes an explicit `currentYear : Int` parameter (the `current_date`
  variable computed in the timestamp rule is dead code in the source — it is
  never interpolated into the emitted condition — and therefore has no
  counterpart here);
* `generate_test_sql` becomes a function into `GenResult`, whose `exn`
  constructor models the `ValueError` raised by the three-way destructuring
  of the model name and whose `failure` constructor models returning `None`;
* query execution becomes an oracle `String → ExecOutcome`; a Snowflake
  `ProgrammingError` carries its message and `errno`, and per the source
  (which matches on "timed out" in the message or `errno == 604`) a query
  that exceeds the timeout surfaces as such a `progError`;
* the per-record `datetime.utcnow()` timestamps of `run_all_checks` become a
  clock oracle `Nat → String` indexed by the running test counter.

Python string primitives (`str.upper`, `str.lower`, `in`, `endswith`,
`str.split('.')`, `" AND ".join`) are re-implemented on character lists so
that every definition evaluates inside the kernel.
-/

/-! ## String utilities mirroring the Python primitives -/

/-- Python `str.upper()` for the ASCII identifiers used by the rules. -/
def strUpper (s : String) : String := String.mk (s.data.map Char.toUpper)

/-- Python `str.lower()` for the ASCII error messages matched by the runner. -/
def strLower (s : String) : String := String.mk (s.data.map Char.toLower)

/-- Check that the first list is a prefix of the second. -/
def listIsPre : List Char → List Char → Bool
  | [], _ => true
  | _ :: _, [] => false
  | a :: as, b :: bs => a == b && listIsPre as bs

/-- Check that `pat` occurs as a contiguous segment of the list. -/
def segIn (pat : List Char) : List Char → Bool
  | [] => listIsPre pat []
  | c :: t => listIsPre pat (c :: t) || segIn pat t

/-- Python `pat in s` (substring containment). -/
def strContains (s pat : String) : Bool := segIn pat.data s.data

/-- Python `s.endswith(suf)`. -/
def strEndsWith (s suf : String) : Bool := listIsPre suf.data.reverse s.data.reverse

/-- Split a character list on a separator character, keeping empty segments,
exactly as Python `str.split(sep)` does for a one-character separator. -/
def splitChar (c : Char) (l : List Char) : List (List Char) :=
  l.foldr (fun ch acc =>
    if ch = c then [] :: acc
    else match acc with
      | h :: t => (ch :: h) :: t
      | [] => [[ch]]) [[]]

/-- Python `model_name.split('.')`. -/
def splitOnDot (s : String) : List String := (splitChar '.' s.data).map String.mk

/-- Python `sep.join(parts)`. -/
def strJoin (sep : String) : List String → String
  | [] => ""
  | h :: t => t.foldl (fun acc x => acc ++ sep ++ x) h

/-- Python truthiness of an optional string (`None` and `""` are falsy). -/
def pyTruthy : Option String → Bool
  | none => false
  | some s => !(s == "")

/-- Python f-string rendering of an optional string (`None` prints as "None"). -/
def pyOptFmt : Option String → String
  | none => "None"
  | some s => s

/-- Double-quote delimiting of an identifier: `f'"{name}"'`. -/
def quoteIdent (s : String) : String := "\"" ++ s ++ "\""

/-! ## Data model -/

/-- One row of `DESCRIBE TABLE`: a column name and its declared type. -/
structure ColumnD where
  name : String
  type : String
deriving DecidableEq

/-- The per-test configuration dictionary.  The rule generator populates
`date_window_col` and `check_yesterday_only` for every test and adds `sql`
for custom tests; `time_window_days` is read by the SQL generator with a
`None` default and is never written by the rule generator. -/
structure TestConfig where
  date_window_col : Option String
  check_yesterday_only : Bool
  sql : Option String
  time_window_days : Option Int
deriving DecidableEq

/-- Python `{**config, 'sql': sql_condition}`. -/
def withSql (cfg : TestConfig) (s : String) : TestConfig :=
  ⟨cfg.date_window_col, cfg.check_yesterday_only, some s, cfg.time_window_days⟩

/-- One generated test dictionary. -/
structure DQTest where
  type : String
  column_name : String
  description : String
  config : TestConfig
deriving DecidableEq

/-- The value returned by `generate_rules_for_table`: the model name plus its
ordered test list. -/
structure ModelRules where
  name : String
  tests : List DQTest
deriving DecidableEq

/-! ## Column-type helpers of `automatic_dq_rules.py` -/

/-- `is_numeric_type`. -/
def isNumericType (t : String) : Bool :=
  strContains (strUpper t) "NUMBER" || strContains (strUpper t) "FLOAT"

/-- `is_boolean_like_type`. -/
def isBooleanLikeType (t : String) : Bool :=
  strContains (strUpper t) "BOOLEAN" || strUpper t == "NUMBER(1,0)"

/-- `is_variant_type`. -/
def isVariantType (t : String) : Bool := strContains (strUpper t) "VARIANT"

/-! ## The fixed name catalogs of the rule generator -/

/-- The primary-key name set of Rule 1. -/
def pkNames : List String := ["ID", "USER_ID", "DATE_ID", "CAMPAIGN_ID"]

/-- The timestamp column names of Rule 2. -/
def timestampCols : List String :=
  ["CREATEDAT", "UPDATEDAT", "DATE", "INSTALL_DATE", "FIRST_ACTIVE",
   "LAST_ACTIVE", "SUB_START_DATE", "FIRST_IMPRESSION_DATE",
   "LAST_IMPRESSION_DATE", "FIRST_BUFF_PLAY_ACTIVITY"]

/-- The financial keyword list of Rule 5. -/
def financialKeywords : List String :=
  ["BALANCE", "BONUSBALANCE", "SPEND", "REVENUE", "LTV", "DAILY_SPEND_USD",
   "DAILY_SPEND_ILS", "DAILY_SPEND_ARS", "POINTS"]

/-- The campaign keyword list of Rule 6. -/
def campaignKeywords : List String :=
  ["IMPRESSIONS", "CLICKS", "INSTALLS", "CAMPAIGN_DURATION"]

/-- The boolean indicator name list of Rule 7. -/
def booleanIndicators : List String :=
  ["IS_SUB_IND", "IS_ACTIVE_SUB_IND", "ISCONFIRMEDEMAIL", "ISFROZEN",
   "ISCLOSED", "IS_REWARDED", "IS_PREMIUM", "CURRENT_YEAR_IND",
   "CURRENT_MONTH_IND", "REGISTRATION_APP"]

/-- The marketing field name list of Rule 10. -/
def marketingFields : List String :=
  ["SOURCE", "MEDIUM", "CAMPAIGN", "MARKETING_SOURCE", "DATA_SOURCE"]

/-- The game field name list of Rule 12. -/
def gameFields : List String := ["FIRST_GAME", "LAST_GAME", "MAIN_GAME"]

/-- The future-date violation condition emitted by Rule 2 for a timestamp
column. -/
def futureSqlFor (n : String) : String :=
  "\"" ++ n ++ "\" > CURRENT_DATE() AND \"" ++ n ++ "\" IS NOT NULL"

/-- The JSON-validity violation condition emitted by Rule 15 for a VARIANT
column. -/
def tryParseSqlFor (n : String) : String :=
  "TRY_PARSE_JSON(\"" ++ n ++ "\") IS NULL AND \"" ++ n ++
    "\" IS NOT NULL AND \"" ++ n ++ "\" != \x27null\x27"

/-- The description prefix computed once per table from the check mode and
the primary date column. -/
def descPreBase (pdc : Option String) (cy : Bool) : String :=
  if cy && pyTruthy pdc then
    "Auto-generated (on " ++ pyOptFmt pdc ++ " for yesterday only)"
  else if pyTruthy pdc then
    "Auto-generated (on " ++ pyOptFmt pdc ++ " for recent data)"
  else "Auto-generated"

/-! ## The fifteen per-column rule blocks, in source order -/

/-- Rule 1: primary-key columns get `not_null` and `unique`; otherwise
foreign-key-looking columns get `not_null` only. -/
def testsRule1 (pre : String) (cfg : TestConfig) (c : ColumnD) : List DQTest :=
  let n := c.name
  let up := strUpper n
  if up ∈ pkNames then
    [⟨"not_null", n, pre ++ ": Primary key \x27" ++ n ++ "\x27 should not be NULL.", cfg⟩,
     ⟨"unique", n, pre ++ ": Primary key \x27" ++ n ++ "\x27 should be unique.", cfg⟩]
  else if strEndsWith up "_ID" = true ∨ up ∈ (["UTM_KEY"] : List String) then
    [⟨"not_null", n, pre ++ ": Foreign key \x27" ++ n ++ "\x27 should not be NULL.", cfg⟩]
  else []

/-- Rule 2: timestamp columns get `not_null`, plus a future-date check unless
the table name contains "DIM_DATES". -/
def testsRule2 (tn pre : String) (cfg : TestConfig) (c : ColumnD) : List DQTest :=
  let n := c.name
  if strUpper n ∈ timestampCols then
    [⟨"not_null", n, pre ++ ": Timestamp column \x27" ++ n ++ "\x27 should not be NULL.", cfg⟩]
    ++ (if strContains (strUpper tn) "DIM_DATES" = false then
      [⟨"custom_sql", n, pre ++ ": Timestamp \x27" ++ n ++ "\x27 should not be in the future.",
        withSql cfg (futureSqlFor n)⟩]
    else [])
  else []

/-- Rule 3: EMAIL columns get `not_null` plus a format check. -/
def testsRule3 (pre : String) (cfg : TestConfig) (c : ColumnD) : List DQTest :=
  let n := c.name
  if strUpper n = "EMAIL" then
    [⟨"not_null", n, pre ++ ": Email column \x27" ++ n ++ "\x27 should not be NULL.", cfg⟩,
     ⟨"custom_sql", n, pre ++ ": Email column \x27" ++ n ++ "\x27 should have a valid format.",
      withSql cfg ("NOT (REGEXP_LIKE(\"" ++ n ++
        "\", \x27[A-Za-z0-9._%+-]+@[A-Za-z0-9.-]+\\.[A-Za-z]\x7b2,\x7d\x27) OR \"" ++ n ++
        "\" IS NULL)")⟩]
  else []

/-- Rule 4: country-code columns get a length check and an emptiness check. -/
def testsRule4 (pre : String) (cfg : TestConfig) (c : ColumnD) : List DQTest :=
  let n := c.name
  if strUpper n ∈ (["COUNTRY", "COUNTRY_CODE"] : List String) then
    [⟨"custom_sql", n, pre ++ ": Country code \x27" ++ n ++ "\x27 should be 2-3 characters.",
      withSql cfg ("(LEN(\"" ++ n ++ "\") < 2 OR LEN(\"" ++ n ++ "\") > 3) AND \"" ++ n ++
        "\" IS NOT NULL AND \"" ++ n ++ "\" != \x27\x27")⟩,
     ⟨"custom_sql", n, pre ++ ": Country code \x27" ++ n ++ "\x27 should not be empty or whitespace.",
      withSql cfg ("TRIM(\"" ++ n ++ "\") = \x27\x27 AND \"" ++ n ++ "\" IS NOT NULL")⟩]
  else []

/-- Rule 5: numeric financial metrics (excluding refunds/adjustments) must be
non-negative. -/
def testsRule5 (pre : String) (cfg : TestConfig) (c : ColumnD) : List DQTest :=
  let n := c.name
  let up := strUpper n
  if isNumericType c.type = true ∧ (financialKeywords.any fun k => strContains up k) = true then
    if strContains up "REFUND" = false ∧ strContains up "ADJUSTMENT" = false then
      [⟨"custom_sql", n, pre ++ ": Financial column \x27" ++ n ++ "\x27 should be non-negative.",
        withSql cfg ("\"" ++ n ++ "\" < 0 AND \"" ++ n ++ "\" IS NOT NULL")⟩]
    else []
  else []

/-- Rule 6: numeric campaign metrics must be non-negative; campaign duration
also has an upper bound. -/
def testsRule6 (pre : String) (cfg : TestConfig) (c : ColumnD) : List DQTest :=
  let n := c.name
  let up := strUpper n
  if isNumericType c.type = true ∧ (campaignKeywords.any fun k => strContains up k) = true then
    [⟨"custom_sql", n, pre ++ ": Campaign metric \x27" ++ n ++ "\x27 should be non-negative.",
      withSql cfg ("\"" ++ n ++ "\" < 0 AND \"" ++ n ++ "\" IS NOT NULL")⟩]
    ++ (if up = "CAMPAIGN_DURATION" then
      [⟨"custom_sql", n,
        pre ++ ": Campaign duration \x27" ++ n ++ "\x27 exceeds reasonable limit (730 days).",
        withSql cfg ("\"" ++ n ++ "\" > 730 AND \"" ++ n ++ "\" IS NOT NULL")⟩]
    else [])
  else []

/-- Rule 7: boolean indicator columns must hold valid boolean values. -/
def testsRule7 (pre : String) (cfg : TestConfig) (c : ColumnD) : List DQTest :=
  let n := c.name
  let up := strUpper n
  if up ∈ booleanIndicators ∨
      (isBooleanLikeType c.type = true ∧
        (strContains up "IS_" = true ∨ strContains up "_IND" = true)) then
    [⟨"custom_sql", n,
      pre ++ ": Boolean indicator \x27" ++ n ++ "\x27 should have valid boolean values.",
      withSql cfg (if strContains (strUpper c.type) "BOOLEAN" = true then
        "\"" ++ n ++ "\" NOT IN (TRUE, FALSE) AND \"" ++ n ++ "\" IS NOT NULL"
      else
        "\"" ++ n ++ "\" NOT IN (0, 1) AND \"" ++ n ++ "\" IS NOT NULL")⟩]
  else []

/-- Rule 8: numeric dimensional ordinals must lie in their calendar ranges;
the YEAR upper bound embeds the current year observed at generation time. -/
def testsRule8 (pre : String) (cfg : TestConfig) (y : Int) (c : ColumnD) : List DQTest :=
  let n := c.name
  let up := strUpper n
  if isNumericType c.type = true then
    if up = "MONTH_ID" then
      [⟨"custom_sql", n, pre ++ ": MONTH_ID should be between 1 and 12.",
        withSql cfg ("(\"" ++ n ++ "\" < 1 OR \"" ++ n ++ "\" > 12) AND \"" ++ n ++ "\" IS NOT NULL")⟩]
    else if up = "QUARTER_ID" then
      [⟨"custom_sql", n, pre ++ ": QUARTER_ID should be between 1 and 4.",
        withSql cfg ("(\"" ++ n ++ "\" < 1 OR \"" ++ n ++ "\" > 4) AND \"" ++ n ++ "\" IS NOT NULL")⟩]
    else if up = "WEEK_NUMBER" then
      [⟨"custom_sql", n, pre ++ ": WEEK_NUMBER should be between 1 and 53.",
        withSql cfg ("(\"" ++ n ++ "\" < 1 OR \"" ++ n ++ "\" > 53) AND \"" ++ n ++ "\" IS NOT NULL")⟩]
    else if up = "YEAR" then
      [⟨"custom_sql", n,
        pre ++ ": YEAR should be within business-relevant range (2015-" ++ toString (y + 10) ++ ").",
        withSql cfg ("(\"" ++ n ++ "\" < 2015 OR \"" ++ n ++ "\" > " ++ toString (y + 10) ++
          ") AND \"" ++ n ++ "\" IS NOT NULL")⟩]
    else []
  else []

/-- Rule 9: UTM_KEY emptiness and length checks. -/
def testsRule9 (pre : String) (cfg : TestConfig) (c : ColumnD) : List DQTest :=
  let n := c.name
  if strUpper n = "UTM_KEY" then
    [⟨"custom_sql", n, pre ++ ": UTM_KEY should not be empty or whitespace.",
      withSql cfg ("(TRIM(\"" ++ n ++ "\") = \x27\x27 OR \"" ++ n ++ "\" = \x27 \x27) AND \"" ++
        n ++ "\" IS NOT NULL")⟩,
     ⟨"custom_sql", n, pre ++ ": UTM_KEY length exceeds reasonable limit (200 chars).",
      withSql cfg ("LEN(\"" ++ n ++ "\") > 200 AND \"" ++ n ++ "\" IS NOT NULL")⟩]
  else []

/-- Rule 10: marketing source fields must not be empty or whitespace. -/
def testsRule10 (pre : String) (cfg : TestConfig) (c : ColumnD) : List DQTest :=
  let n := c.name
  if strUpper n ∈ marketingFields then
    [⟨"custom_sql", n, pre ++ ": Marketing field \x27" ++ n ++ "\x27 should not be empty or whitespace.",
      withSql cfg ("(TRIM(\"" ++ n ++ "\") = \x27\x27 OR \"" ++ n ++ "\" = \x27 \x27) AND \"" ++
        n ++ "\" IS NOT NULL")⟩]
  else []

/-- Rule 11: user-type and role fields must not be empty or whitespace. -/
def testsRule11 (pre : String) (cfg : TestConfig) (c : ColumnD) : List DQTest :=
  let n := c.name
  if strUpper n ∈ (["USER_TYPE", "ROLE", "AUTHTYPE", "PREM_TYPE"] : List String) then
    [⟨"custom_sql", n,
      pre ++ ": Classification field \x27" ++ n ++ "\x27 should not be empty or whitespace.",
      withSql cfg ("(TRIM(\"" ++ n ++ "\") = \x27\x27 OR \"" ++ n ++ "\" = \x27 \x27) AND \"" ++
        n ++ "\" IS NOT NULL")⟩]
  else []

/-- Rule 12: numeric game identifiers must be positive. -/
def testsRule12 (pre : String) (cfg : TestConfig) (c : ColumnD) : List DQTest :=
  let n := c.name
  if strUpper n ∈ gameFields ∧ isNumericType c.type = true then
    [⟨"custom_sql", n, pre ++ ": Game ID \x27" ++ n ++ "\x27 should be positive.",
      withSql cfg ("\"" ++ n ++ "\" <= 0 AND \"" ++ n ++ "\" IS NOT NULL")⟩]
  else []

/-- Rule 13: the active-subscription count must be in a sane range. -/
def testsRule13 (pre : String) (cfg : TestConfig) (c : ColumnD) : List DQTest :=
  let n := c.name
  if strUpper n = "NUMBER_OF_ACTIVE_SUBSCRIPTIONS" ∧ isNumericType c.type = true then
    [⟨"custom_sql", n, pre ++ ": NUMBER_OF_ACTIVE_SUBSCRIPTIONS should not be negative.",
      withSql cfg ("\"" ++ n ++ "\" < 0 AND \"" ++ n ++ "\" IS NOT NULL")⟩,
     ⟨"custom_sql", n, pre ++ ": NUMBER_OF_ACTIVE_SUBSCRIPTIONS exceeds reasonable limit (10).",
      withSql cfg ("\"" ++ n ++ "\" > 10 AND \"" ++ n ++ "\" IS NOT NULL")⟩]
  else []

/-- Rule 14: currency codes must have exactly three characters. -/
def testsRule14 (pre : String) (cfg : TestConfig) (c : ColumnD) : List DQTest :=
  let n := c.name
  if strUpper n = "CURRENCY" then
    [⟨"custom_sql", n, pre ++ ": Currency code should be 3 characters.",
      withSql cfg ("LEN(\"" ++ n ++ "\") != 3 AND \"" ++ n ++ "\" IS NOT NULL")⟩]
  else []

/-- Rule 15: VARIANT columns must contain valid JSON. -/
def testsRule15 (pre : String) (cfg : TestConfig) (c : ColumnD) : List DQTest :=
  let n := c.name
  if isVariantType c.type = true then
    [⟨"custom_sql", n, pre ++ ": VARIANT field \x27" ++ n ++ "\x27 should contain valid JSON.",
      withSql cfg (tryParseSqlFor n)⟩]
  else []

/-- The whole per-column pass of the generator, appending the fifteen rule
blocks in source order. -/
def testsForColumn (tn pre : String) (cfg : TestConfig) (y : Int) (c : ColumnD) : List DQTest :=
  testsRule1 pre cfg c ++ testsRule2 tn pre cfg c ++ testsRule3 pre cfg c ++
  testsRule4 pre cfg c ++ testsRule5 pre cfg c ++ testsRule6 pre cfg c ++
  testsRule7 pre cfg c ++ testsRule8 pre cfg y c ++ testsRule9 pre cfg c ++
  testsRule10 pre cfg c ++ testsRule11 pre cfg c ++ testsRule12 pre cfg c ++
  testsRule13 pre cfg c ++ testsRule14 pre cfg c ++ testsRule15 pre cfg c

/-- The `col_index` dictionary comprehension: the (case-preserved) name of
the last column whose uppercased name equals `u`, if any. -/
def colIndexFind (cols : List ColumnD) (u : String) : Option String :=
  ((cols.filter fun c => strUpper c.name == u).getLast?).map ColumnD.name

/-- Cross-column rule 1: DATE_ID must align with DATE as YYYYMMDD. -/
def crossTest1 (cols : List ColumnD) (pre : String) (cfg : TestConfig) : List DQTest :=
  match colIndexFind cols "DATE_ID", colIndexFind cols "DATE" with
  | some di, some d =>
    [⟨"custom_sql", di, pre ++ ": DATE_ID must equal YYYYMMDD representation of DATE.",
      withSql cfg ("TO_NUMBER(TO_CHAR(\"" ++ d ++ "\", \x27YYYYMMDD\x27)) <> \"" ++ di ++
        "\" AND \"" ++ d ++ "\" IS NOT NULL AND \"" ++ di ++ "\" IS NOT NULL")⟩]
  | _, _ => []

/-- Cross-column rule 2: createdAt must not be after updatedAt. -/
def crossTest2 (cols : List ColumnD) (pre : String) (cfg : TestConfig) : List DQTest :=
  match colIndexFind cols "CREATEDAT", colIndexFind cols "UPDATEDAT" with
  | some ca, some ua =>
    [⟨"custom_sql", ca, pre ++ ": createdAt must be ≤ updatedAt.",
      withSql cfg ("\"" ++ ca ++ "\" > \"" ++ ua ++ "\" AND \"" ++ ca ++
        "\" IS NOT NULL AND \"" ++ ua ++ "\" IS NOT NULL")⟩]
  | _, _ => []

/-- Cross-column rule 3: impression dates must be ordered. -/
def crossTest3 (cols : List ColumnD) (pre : String) (cfg : TestConfig) : List DQTest :=
  match colIndexFind cols "FIRST_IMPRESSION_DATE", colIndexFind cols "LAST_IMPRESSION_DATE" with
  | some fi, some li =>
    [⟨"custom_sql", fi, pre ++ ": FIRST_IMPRESSION_DATE must not be after LAST_IMPRESSION_DATE.",
      withSql cfg ("\"" ++ fi ++ "\" > \"" ++ li ++ "\" AND \"" ++ fi ++
        "\" IS NOT NULL AND \"" ++ li ++ "\" IS NOT NULL")⟩]
  | _, _ => []

/-- Cross-column rule 4: DATE must lie within the impression range. -/
def crossTest4 (cols : List ColumnD) (pre : String) (cfg : TestConfig) : List DQTest :=
  match colIndexFind cols "DATE", colIndexFind cols "FIRST_IMPRESSION_DATE",
      colIndexFind cols "LAST_IMPRESSION_DATE" with
  | some d, some fi, some li =>
    [⟨"custom_sql", d, pre ++ ": DATE must be between FIRST_IMPRESSION_DATE and LAST_IMPRESSION_DATE.",
      withSql cfg ("(\"" ++ d ++ "\" < \"" ++ fi ++ "\" OR \"" ++ d ++ "\" > \"" ++ li ++
        "\") AND \"" ++ d ++ "\" IS NOT NULL")⟩]
  | _, _, _ => []

/-- Cross-column rule 5: CLICKS must not exceed IMPRESSIONS. -/
def crossTest5 (cols : List ColumnD) (pre : String) (cfg : TestConfig) : List DQTest :=
  match colIndexFind cols "CLICKS", colIndexFind cols "IMPRESSIONS" with
  | some cl, some im =>
    [⟨"custom_sql", cl, pre ++ ": CLICKS cannot exceed IMPRESSIONS.",
      withSql cfg ("\"" ++ cl ++ "\" > \"" ++ im ++ "\" AND \"" ++ cl ++
        "\" IS NOT NULL AND \"" ++ im ++ "\" IS NOT NULL")⟩]
  | _, _ => []

/-- The five cross-column rules, each gated on the presence of its column
names in `col_index`, appended in source order. -/
def crossTests (cols : List ColumnD) (pre : String) (cfg : TestConfig) : List DQTest :=
  crossTest1 cols pre cfg ++ crossTest2 cols pre cfg ++ crossTest3 cols pre cfg ++
  crossTest4 cols pre cfg ++ crossTest5 cols pre cfg

/-- The table-name-gated business rules (Rule 16). -/
def gatedTests (tn : String) (cols : List ColumnD) (pre : String) (cfg : TestConfig) : List DQTest :=
  if strContains (strUpper tn) "ACCOUNTS" = true then
    if (cols.any fun c => strUpper c.name == "ISCONFIRMEDEMAIL") = true ∧
        (cols.any fun c => strUpper c.name == "EMAIL") = true then
      [⟨"custom_sql", "isConfirmedEmail,email",
        pre ++ ": If email is confirmed, email field should not be null.",
        withSql cfg "ISCONFIRMEDEMAIL = TRUE AND EMAIL IS NULL"⟩]
    else []
  else if strContains (strUpper tn) "DIM_USERS" = true then
    if (cols.any fun c => strUpper c.name == "IS_ACTIVE_SUB_IND") = true ∧
        (cols.any fun c => strUpper c.name == "NUMBER_OF_ACTIVE_SUBSCRIPTIONS") = true then
      [⟨"custom_sql", "IS_ACTIVE_SUB_IND,NUMBER_OF_ACTIVE_SUBSCRIPTIONS",
        pre ++ ": Active subscription indicator should match subscription count.",
        withSql cfg "IS_ACTIVE_SUB_IND = 1 AND (NUMBER_OF_ACTIVE_SUBSCRIPTIONS IS NULL OR NUMBER_OF_ACTIVE_SUBSCRIPTIONS = 0)"⟩]
    else []
  else []

/-- `generate_rules_for_table`, with the wall-clock year observed by the YEAR
range rule made an explicit parameter `y`. -/
def generate_rules_for_table (tn : String) (cols : List ColumnD) (pdc : Option String)
    (cy : Bool) (y : Int) : ModelRules :=
  let baseCfg : TestConfig := ⟨pdc, cy, none, none⟩
  let pre := descPreBase pdc cy
  ⟨tn, (cols.flatMap fun c => testsForColumn tn pre baseCfg y c) ++
    crossTests cols pre baseCfg ++ gatedTests tn cols pre baseCfg⟩

/-! ## `generate_test_sql` of `run_automatic_dq_checks.py` -/

/-- The outcome of `generate_test_sql`: `exn` models the `ValueError` raised
when unpacking `model_name.split('.')` into three parts fails; `failure`
models returning `None`; `sql` carries the generated statement. -/
inductive GenResult where
  | exn : GenResult
  | failure : GenResult
  | sql : String → GenResult
deriving DecidableEq

/-- The time-window filter fragment computed from the test configuration:
empty when no (truthy) window column is configured; the previous-calendar-day
filter when `check_yesterday_only`; else the trailing-days filter when a
positive day count is configured, and empty otherwise. -/
def windowFilterContent (cfg : TestConfig) : String :=
  match cfg.date_window_col with
  | none => ""
  | some dcol =>
    if dcol = "" then ""
    else
      let qd := quoteIdent dcol
      if cfg.check_yesterday_only then
        qd ++ " >= CURRENT_DATE - INTERVAL \x271 DAY\x27 AND " ++ qd ++ " < CURRENT_DATE"
      else
        match cfg.time_window_days with
        | some nd => if nd > 0 then
            qd ++ " >= CURRENT_DATE - INTERVAL \x27" ++ toString nd ++ " DAY\x27"
          else ""
        | none => ""

/-- The body of the triple-quoted f-string used for `unique` tests, with the
rendered column, the quoted model name and the final WHERE clause spliced in
at their source positions. -/
def uniqueSqlText (col qm wc : String) : String :=
  "\n        SELECT COUNT(*) FROM (\n            SELECT " ++ col ++
  "\n            FROM " ++ qm ++ "\n            " ++ wc ++
  "\n            GROUP BY " ++ col ++ "\n            HAVING COUNT(*) > 1\n        )\n        "

/-- `generate_test_sql`.  The model name is unpacked into three dot-separated
parts first (anything else raises); then the violation predicate is chosen by
test type (`None` for a missing/empty custom fragment or an unknown type);
the optional time-window filter is ANDed on as a further WHERE condition, and
the final statement is a flat violating-row count, or a duplicate-group count
through a grouped sub-query for `unique`. -/
def generate_test_sql (testType modelName columnName : String) (cfg : TestConfig) : GenResult :=
  match splitOnDot modelName with
  | [db, schema, table] =>
    let quotedModelName := quoteIdent db ++ "." ++ quoteIdent schema ++ "." ++ quoteIdent table
    let quotedColumnName : Option String :=
      if columnName = "N/A" then none else some (quoteIdent columnName)
    let baseRes : Option String :=
      if testType = "not_null" then some (pyOptFmt quotedColumnName ++ " IS NULL")
      else if testType = "unique" then some (pyOptFmt quotedColumnName ++ " IS NOT NULL")
      else if testType = "custom_sql" then
        match cfg.sql with
        | some s => if s = "" then none else some s
        | none => none
      else none
    match baseRes with
    | none => GenResult.failure
    | some baseContent =>
      let conds := (if baseContent = "" then [] else ["(" ++ baseContent ++ ")"]) ++
        (if windowFilterContent cfg = "" then [] else ["(" ++ windowFilterContent cfg ++ ")"])
      let finalWhere := if conds = ([] : List String) then "" else " WHERE " ++ strJoin " AND " conds
      if testType = "unique" then
        GenResult.sql (uniqueSqlText (pyOptFmt quotedColumnName) quotedModelName finalWhere)
      else
        GenResult.sql ("SELECT COUNT(*) FROM " ++ quotedModelName ++ finalWhere)
  | _ => GenResult.exn

/-- The trailing " AND (window)" part of a generated WHERE clause, used to
state the compiled statements in closed form. -/
def windowSuffix (cfg : TestConfig) : String :=
  if windowFilterContent cfg = "" then "" else " AND (" ++ windowFilterContent cfg ++ ")"

/-! ## `run_all_checks` -/

/-- The observable outcome of executing one statement on the warehouse:
a fetched scalar row count, a Snowflake `ProgrammingError` with its message
and `errno` (a statement exceeding the query timeout surfaces this way, with
"timed out" in the message or `errno = 604`), or any other exception. -/
inductive ExecOutcome where
  | rows : Int → ExecOutcome
  | progError : String → Int → ExecOutcome
  | otherExn : ExecOutcome
deriving DecidableEq

/-- One entry of the results list written by `run_all_checks`. -/
structure ResultRecord where
  model_name : String
  column_name : String
  test_type : String
  status : String
  failing_rows : Int
  description : String
  timestamp : String
deriving DecidableEq

/-- The status/count classification of one execution outcome, exactly as the
try/except blocks of `run_all_checks` compute it. -/
def classifyExec (e : ExecOutcome) : String × Int :=
  match e with
  | .rows n => (if n > 0 then "fail" else "pass", n)
  | .progError msg errno =>
    if strContains (strLower msg) "timed out" = true ∨ errno = 604 then ("timeout", -1)
    else ("error", -1)
  | .otherExn => ("error", -1)

/-- One iteration of the test loop of `run_all_checks`: compile the test,
record an `error` row when compilation returns `None`, otherwise execute and
classify; a compilation exception propagates (`none`). -/
def runTest (exec : String → ExecOutcome) (clock : Nat → String) (i : Nat)
    (modelName : String) (t : DQTest) : Option ResultRecord :=
  match generate_test_sql t.type modelName t.column_name t.config with
  | .exn => none
  | .failure => some ⟨modelName, t.column_name, t.type, "error", -1, t.description, clock i⟩
  | .sql s =>
    some ⟨modelName, t.column_name, t.type, (classifyExec (exec s)).1,
      (classifyExec (exec s)).2, t.description, clock i⟩

/-- The sequential test loop with its running counter; an uncaught exception
in any iteration aborts the whole run. -/
def runChecksAux (exec : String → ExecOutcome) (clock : Nat → String) :
    Nat → List (String × DQTest) → Option (List ResultRecord)
  | _, [] => some []
  | i, (mn, t) :: rest =>
    match runTest exec clock i mn t with
    | none => none
    | some r =>
      match runChecksAux exec clock (i + 1) rest with
      | none => none
      | some rs => some (r :: rs)

/-- The flattened (model name, test) pairs in loop order. -/
def testPairs (ms : List ModelRules) : List (String × DQTest) :=
  ms.flatMap fun m => m.tests.map fun t => (m.name, t)

/-- `run_all_checks` over the execution and clock oracles: every test of
every model is run in order with the counter starting at 1. -/
def run_all_checks (exec : String → ExecOutcome) (clock : Nat → String)
    (ms : List ModelRules) : Option (List ResultRecord) :=
  runChecksAux exec clock 1 (testPairs ms)

/-! ## Helper lemmas -/

theorem strExt {a b : String} (h : a.data = b.data) : a = b := congrArg String.mk h

theorem strAppendNeEmpty (x y : String) (h : y.data ≠ []) : x ++ y ≠ "" := by
  intro he
  have h2 := congrArg String.data he
  simp only [String.data_append] at h2
  rcases List.append_eq_nil.mp h2 with ⟨_, h4⟩
  exact h h4

theorem strJoinSingle (sep x : String) : strJoin sep [x] = x := rfl

theorem strJoinPair (sep x z : String) : strJoin sep [x, z] = x ++ sep ++ z := rfl

/-- Compiled form of a `not_null` statement for a three-part model name. -/
theorem notNullSqlEq (m db sc tb col : String) (cfg : TestConfig)
    (hm : splitOnDot m = [db, sc, tb]) :
    generate_test_sql "not_null" m col cfg = GenResult.sql
      ("SELECT COUNT(*) FROM " ++ quoteIdent db ++ "." ++ quoteIdent sc ++ "." ++ quoteIdent tb ++
        " WHERE (" ++ pyOptFmt (if col = "N/A" then none else some (quoteIdent col)) ++
        " IS NULL)" ++ windowSuffix cfg) := by
  have hb : pyOptFmt (if col = "N/A" then none else some (quoteIdent col)) ++ " IS NULL" ≠ "" :=
    strAppendNeEmpty _ _ (by decide)
  by_cases hw : windowFilterContent cfg = "" <;>
  · simp [generate_test_sql, hm, windowSuffix, hw, hb, strJoinSingle, strJoinPair]
    apply strExt
    simp [String.data_append]

/-- Compiled form of a `unique` statement for a three-part model name. -/
theorem uniqueSqlEq (m db sc tb col : String) (cfg : TestConfig)
    (hm : splitOnDot m = [db, sc, tb]) :
    generate_test_sql "unique" m col cfg = GenResult.sql
      (uniqueSqlText (pyOptFmt (if col = "N/A" then none else some (quoteIdent col)))
        (quoteIdent db ++ "." ++ quoteIdent sc ++ "." ++ quoteIdent tb)
        (" WHERE (" ++ pyOptFmt (if col = "N/A" then none else some (quoteIdent col)) ++
          " IS NOT NULL)" ++ windowSuffix cfg)) := by
  have hb : pyOptFmt (if col = "N/A" then none else some (quoteIdent col)) ++ " IS NOT NULL" ≠ "" :=
    strAppendNeEmpty _ _ (by decide)
  by_cases hw : windowFilterContent cfg = "" <;>
  · simp [generate_test_sql, hm, windowSuffix, hw, hb, strJoinSingle, strJoinPair, uniqueSqlText]
    apply strExt
    simp [String.data_append]

/-- Compiled form of a `custom_sql` statement with a non-empty fragment. -/
theorem customSqlEq (m db sc tb col s : String) (cfg : TestConfig)
    (hm : splitOnDot m = [db, sc, tb]) (hs : cfg.sql = some s) (hne : s ≠ "") :
    generate_test_sql "custom_sql" m col cfg = GenResult.sql
      ("SELECT COUNT(*) FROM " ++ quoteIdent db ++ "." ++ quoteIdent sc ++ "." ++ quoteIdent tb ++
        " WHERE (" ++ s ++ ")" ++ windowSuffix cfg) := by
  by_cases hw : windowFilterContent cfg = "" <;>
  · simp [generate_test_sql, hm, windowSuffix, hs, hne, hw, strJoinSingle, strJoinPair]
    apply strExt
    simp [String.data_append]

/-! ## Claims about the SQL compiler and the executor -/

/-- C2: for every `unique` test specification, the statement produced by
`generate_test_sql` is the grouped sub-query counting duplicate groups
(inner `SELECT col FROM table ... GROUP BY col HAVING COUNT(*) > 1`, outer
`SELECT COUNT(*)`), and its WHERE clause carries `("col" IS NOT NULL)` as its
first conjunct, so rows whose target column is NULL are excluded from the
grouped set and never counted as a duplicate group. -/
theorem unique_sql_counts_duplicate_groups_excluding_null
    (m db sc tb col : String) (cfg : TestConfig)
    (hm : splitOnDot m = [db, sc, tb]) (hcol : col ≠ "N/A") :
    generate_test_sql "unique" m col cfg = GenResult.sql
      (uniqueSqlText (quoteIdent col)
        (quoteIdent db ++ "." ++ quoteIdent sc ++ "." ++ quoteIdent tb)
        (" WHERE (" ++ quoteIdent col ++ " IS NOT NULL)" ++ windowSuffix cfg)) := by
  have h := uniqueSqlEq m db sc tb col cfg hm
  simpa [hcol, pyOptFmt] using h

/-- Witness for C2 at a concrete specification. -/
theorem unique_sql_counts_duplicate_groups_excluding_null_witness :
    ∃ s, generate_test_sql "unique" "DWH.PUBLIC.ACCOUNTS" "ID"
      ⟨some "UPDATEDAT", true, none, none⟩ = GenResult.sql s :=
  ⟨_, unique_sql_counts_duplicate_groups_excluding_null "DWH.PUBLIC.ACCOUNTS" "DWH" "PUBLIC"
    "ACCOUNTS" "ID" ⟨some "UPDATEDAT", true, none, none⟩ (by decide) (by decide)⟩

/-- C3: whenever the configured time window is non-trivial, its filter is
composed by AND as a further top-level WHERE condition after the violation
predicate — inside the grouped sub-query, before GROUP BY, for `unique` —
and the violation predicate itself (`IS NULL`, `IS NOT NULL`, or the custom
fragment `s` taken verbatim) is unchanged by the window. -/
theorem time_window_composed_as_top_level_and
    (m db sc tb col : String) (cfg : TestConfig)
    (hm : splitOnDot m = [db, sc, tb]) (hw : windowFilterContent cfg ≠ "") :
    (generate_test_sql "not_null" m col cfg = GenResult.sql
      ("SELECT COUNT(*) FROM " ++ quoteIdent db ++ "." ++ quoteIdent sc ++ "." ++ quoteIdent tb ++
        " WHERE (" ++ pyOptFmt (if col = "N/A" then none else some (quoteIdent col)) ++
        " IS NULL)" ++ (" AND (" ++ windowFilterContent cfg ++ ")"))) ∧
    (generate_test_sql "unique" m col cfg = GenResult.sql
      (uniqueSqlText (pyOptFmt (if col = "N/A" then none else some (quoteIdent col)))
        (quoteIdent db ++ "." ++ quoteIdent sc ++ "." ++ quoteIdent tb)
        (" WHERE (" ++ pyOptFmt (if col = "N/A" then none else some (quoteIdent col)) ++
          " IS NOT NULL)" ++ (" AND (" ++ windowFilterContent cfg ++ ")")))) ∧
    (∀ s, cfg.sql = some s → s ≠ "" → generate_test_sql "custom_sql" m col cfg = GenResult.sql
      ("SELECT COUNT(*) FROM " ++ quoteIdent db ++ "." ++ quoteIdent sc ++ "." ++ quoteIdent tb ++
        " WHERE (" ++ s ++ ")" ++ (" AND (" ++ windowFilterContent cfg ++ ")"))) := by
  refine ⟨?_, ?_, ?_⟩
  · have h := notNullSqlEq m db sc tb col cfg hm
    simpa [windowSuffix, hw] using h
  · have h := uniqueSqlEq m db sc tb col cfg hm
    simpa [windowSuffix, hw] using h
  · intro s hs hne
    have h := customSqlEq m db sc tb col s cfg hm hs hne
    simpa [windowSuffix, hw] using h

/-- Witness for C3 at a concrete specification with a yesterday-only window. -/
theorem time_window_composed_as_top_level_and_witness :
    ∃ s1 s2, generate_test_sql "not_null" "DWH.PUBLIC.ACCOUNTS" "ID"
        ⟨some "UPDATEDAT", true, none, none⟩ = GenResult.sql s1 ∧
      generate_test_sql "unique" "DWH.PUBLIC.ACCOUNTS" "ID"
        ⟨some "UPDATEDAT", true, none, none⟩ = GenResult.sql s2 := by
  have h := time_window_composed_as_top_level_and "DWH.PUBLIC.ACCOUNTS" "DWH" "PUBLIC" "ACCOUNTS"
    "ID" ⟨some "UPDATEDAT", true, none, none⟩ (by decide) (by decide)
  exact ⟨_, _, h.1, h.2.1⟩

/-- C10: `generate_test_sql` destructures the model name into exactly three
dot-separated parts — any other shape raises instead of returning SQL — and
for a three-part name the emitted statement delimits the table parts and
(for `not_null`/`unique`) the target column with double quotes. -/
theorem generate_test_sql_requires_three_part_name (ty m col : String) (cfg : TestConfig) :
    ((splitOnDot m).length ≠ 3 → generate_test_sql ty m col cfg = GenResult.exn) ∧
    (∀ db sc tb, splitOnDot m = [db, sc, tb] → col ≠ "N/A" →
      generate_test_sql "not_null" m col cfg = GenResult.sql
        ("SELECT COUNT(*) FROM " ++ ("\"" ++ db ++ "\"") ++ "." ++ ("\"" ++ sc ++ "\"") ++ "." ++
          ("\"" ++ tb ++ "\"") ++ " WHERE (" ++ ("\"" ++ col ++ "\"") ++ " IS NULL)" ++
          windowSuffix cfg) ∧
      generate_test_sql "unique" m col cfg = GenResult.sql
        (uniqueSqlText ("\"" ++ col ++ "\"")
          (("\"" ++ db ++ "\"") ++ "." ++ ("\"" ++ sc ++ "\"") ++ "." ++ ("\"" ++ tb ++ "\""))
          (" WHERE (" ++ ("\"" ++ col ++ "\"") ++ " IS NOT NULL)" ++ windowSuffix cfg))) := by
  constructor
  · intro hlen
    rcases hsp : splitOnDot m with _ | ⟨a, _ | ⟨b, _ | ⟨c, l⟩⟩⟩
    · simp [generate_test_sql, hsp]
    · simp [generate_test_sql, hsp]
    · simp [generate_test_sql, hsp]
    · cases l with
      | nil => exact absurd (by rw [hsp]; rfl) hlen
      | cons d l2 => simp [generate_test_sql, hsp]
  · intro db sc tb hm hcol
    constructor
    · have h := notNullSqlEq m db sc tb col cfg hm
      simpa [hcol, pyOptFmt, quoteIdent] using h
    · have h := uniqueSqlEq m db sc tb col cfg hm
      simpa [hcol, pyOptFmt, quoteIdent] using h

/-- Witness for C10 at concrete model names of both shapes. -/
theorem generate_test_sql_requires_three_part_name_witness :
    generate_test_sql "not_null" "DWH.ACCOUNTS" "ID" ⟨none, false, none, none⟩ =
      GenResult.exn ∧
    (∃ s, generate_test_sql "not_null" "DWH.PUBLIC.ACCOUNTS" "ID" ⟨none, false, none, none⟩ =
      GenResult.sql s) := by
  constructor
  · exact (generate_test_sql_requires_three_part_name "not_null" "DWH.ACCOUNTS" "ID"
      ⟨none, false, none, none⟩).1 (by decide)
  · exact ⟨_, ((generate_test_sql_requires_three_part_name "not_null" "DWH.PUBLIC.ACCOUNTS" "ID"
      ⟨none, false, none, none⟩).2 "DWH" "PUBLIC" "ACCOUNTS" (by decide) (by decide)).1⟩

/-- C5 counterexample: with a present-but-empty custom fragment (`sql` key
bound to `""`), `generate_test_sql` still returns its failure value, although
the fragment is not absent and the kind is the recognized `custom_sql` — so
"fails iff the fragment is absent or the kind is unrecognized" is false as
stated. -/
theorem compile_failure_on_present_empty_fragment :
    generate_test_sql "custom_sql" "a.b.c" "X" ⟨none, false, some "", none⟩ =
      GenResult.failure ∧
    (⟨none, false, some "", none⟩ : TestConfig).sql ≠ none := by
  constructor
  · decide
  · decide

/-- C5 (amended): for a three-part model name, `generate_test_sql` returns
its failure value exactly when the kind is `custom_sql` with the fragment
absent or empty, or the kind is unrecognized; the orchestrator turns such a
test into a single `error` record with failing_rows -1 and keeps running,
producing one record per remaining test. -/
theorem compile_failure_iff_fragment_missing_or_empty_or_unknown_kind
    (ty m col db sc tb : String) (cfg : TestConfig) (hm : splitOnDot m = [db, sc, tb]) :
    (generate_test_sql ty m col cfg = GenResult.failure ↔
      (ty = "custom_sql" ∧ (cfg.sql = none ∨ cfg.sql = some "")) ∨
      (ty ≠ "not_null" ∧ ty ≠ "unique" ∧ ty ≠ "custom_sql")) ∧
    (∀ (exec : String → ExecOutcome) (clock : Nat → String) (i : Nat) (mn : String) (t : DQTest),
      generate_test_sql t.type mn t.column_name t.config = GenResult.failure →
      runTest exec clock i mn t =
        some ⟨mn, t.column_name, t.type, "error", -1, t.description, clock i⟩) ∧
    (∀ (exec : String → ExecOutcome) (clock : Nat → String) (i : Nat)
        (pairs : List (String × DQTest)),
      (∀ p ∈ pairs, generate_test_sql p.2.type p.1 p.2.column_name p.2.config ≠ GenResult.exn) →
      ∃ l, runChecksAux exec clock i pairs = some l ∧ l.length = pairs.length) := by
  refine ⟨?_, ?_, ?_⟩
  · by_cases h1 : ty = "not_null"
    · subst h1; simp [generate_test_sql, hm]
    · by_cases h2 : ty = "unique"
      · subst h2; simp [generate_test_sql, hm]
      · by_cases h3 : ty = "custom_sql"
        · subst h3
          cases hsq : cfg.sql with
          | none => simp [generate_test_sql, hm, hsq]
          | some s =>
            by_cases hse : s = "" <;> simp [generate_test_sql, hm, hsq, hse]
        · simp [generate_test_sql, hm, h1, h2, h3]
  · intro exec clock i mn t hfail
    simp [runTest, hfail]
  · intro exec clock i pairs
    induction pairs generalizing i with
    | nil => exact fun _ => ⟨[], rfl, rfl⟩
    | cons p rest ih =>
      intro h
      obtain ⟨mn, t⟩ := p
      have hne := h (mn, t) (List.mem_cons_self _ _)
      obtain ⟨r, hr⟩ : ∃ r, runTest exec clock i mn t = some r := by
        cases hgen : generate_test_sql t.type mn t.column_name t.config with
        | exn => exact absurd hgen hne
        | failure =>
          exact ⟨⟨mn, t.column_name, t.type, "error", -1, t.description, clock i⟩,
            by simp [runTest, hgen]⟩
        | sql s =>
          exact ⟨⟨mn, t.column_name, t.type, (classifyExec (exec s)).1,
            (classifyExec (exec s)).2, t.description, clock i⟩, by simp [runTest, hgen]⟩
      obtain ⟨l, hl, hlen⟩ := ih (i + 1) (fun q hq => h q (List.mem_cons_of_mem _ hq))
      exact ⟨r :: l, by simp [runChecksAux, hr, hl], by simp [hlen]⟩

/-- Witness for the amended C5 at a concrete missing-fragment test. -/
theorem compile_failure_iff_fragment_missing_or_empty_or_unknown_kind_witness :
    generate_test_sql "custom_sql" "a.b.c" "X" ⟨none, false, none, none⟩ =
      GenResult.failure :=
  ((compile_failure_iff_fragment_missing_or_empty_or_unknown_kind "custom_sql" "a.b.c" "X"
    "a" "b" "c" ⟨none, false, none, none⟩ (by decide)).1).mpr (Or.inl ⟨rfl, Or.inl rfl⟩)

/-- C4: once a test compiles to a statement, an execution that surfaces as
the timeout shape of a Snowflake ProgrammingError — `errno` 604 (the
source's own timeout error code) or "timed out" in the lowercased message —
is always recorded as status "timeout" with failing_rows -1, never as
"error"; every other execution failure is recorded as status "error" with
failing_rows -1. -/
theorem timeout_reported_as_timeout_not_error
    (exec : String → ExecOutcome) (clock : Nat → String) (i : Nat) (mn s : String) (t : DQTest)
    (hsql : generate_test_sql t.type mn t.column_name t.config = GenResult.sql s) :
    (∀ msg, exec s = ExecOutcome.progError msg 604 →
      runTest exec clock i mn t =
        some ⟨mn, t.column_name, t.type, "timeout", -1, t.description, clock i⟩) ∧
    (∀ msg errno, strContains (strLower msg) "timed out" = true →
      exec s = ExecOutcome.progError msg errno →
      runTest exec clock i mn t =
        some ⟨mn, t.column_name, t.type, "timeout", -1, t.description, clock i⟩) ∧
    (∀ msg errno, errno ≠ 604 → strContains (strLower msg) "timed out" = false →
      exec s = ExecOutcome.progError msg errno →
      runTest exec clock i mn t =
        some ⟨mn, t.column_name, t.type, "error", -1, t.description, clock i⟩) ∧
    (exec s = ExecOutcome.otherExn →
      runTest exec clock i mn t =
        some ⟨mn, t.column_name, t.type, "error", -1, t.description, clock i⟩) := by
  refine ⟨?_, ?_, ?_, ?_⟩
  · intro msg hexec
    simp [runTest, hsql, classifyExec, hexec]
  · intro msg errno hmsg hexec
    simp [runTest, hsql, classifyExec, hexec, hmsg]
  · intro msg errno herrno hmsg hexec
    simp [runTest, hsql, classifyExec, hexec, hmsg, herrno]
  · intro hexec
    simp [runTest, hsql, classifyExec, hexec]

/-- Witness for C4: a concrete 604-timeout execution yields a "timeout"
record with failing_rows -1. -/
theorem timeout_reported_as_timeout_not_error_witness :
    runTest (fun _ => ExecOutcome.progError "x" 604) (fun _ => "ts") 1 "a.b.c"
      ⟨"not_null", "c", "d", ⟨none, false, none, none⟩⟩ =
      some ⟨"a.b.c", "c", "not_null", "timeout", -1, "d", "ts"⟩ :=
  (timeout_reported_as_timeout_not_error (fun _ => ExecOutcome.progError "x" 604)
    (fun _ => "ts") 1 "a.b.c" "SELECT COUNT(*) FROM \"a\".\"b\".\"c\" WHERE (\"c\" IS NULL)"
    ⟨"not_null", "c", "d", ⟨none, false, none, none⟩⟩ (by decide)).1 "x" rfl

/-! ## Structural lemmas about the rule blocks -/

theorem nameRule1 (pre : String) (cfg : TestConfig) (c : ColumnD) :
    ∀ t ∈ testsRule1 pre cfg c, t.column_name = c.name := by
  simp only [testsRule1]
  split_ifs <;> simp

theorem nameRule2 (tn pre : String) (cfg : TestConfig) (c : ColumnD) :
    ∀ t ∈ testsRule2 tn pre cfg c, t.column_name = c.name := by
  simp only [testsRule2]
  split_ifs <;> simp

theorem nameRule3 (pre : String) (cfg : TestConfig) (c : ColumnD) :
    ∀ t ∈ testsRule3 pre cfg c, t.column_name = c.name := by
  simp only [testsRule3]
  split_ifs <;> simp

theorem nameRule4 (pre : String) (cfg : TestConfig) (c : ColumnD) :
    ∀ t ∈ testsRule4 pre cfg c, t.column_name = c.name := by
  simp only [testsRule4]
  split_ifs <;> simp

theorem nameRule5 (pre : String) (cfg : TestConfig) (c : ColumnD) :
    ∀ t ∈ testsRule5 pre cfg c, t.column_name = c.name := by
  simp only [testsRule5]
  split_ifs <;> simp

theorem nameRule6 (pre : String) (cfg : TestConfig) (c : ColumnD) :
    ∀ t ∈ testsRule6 pre cfg c, t.column_name = c.name := by
  simp only [testsRule6]
  split_ifs <;> simp

theorem nameRule7 (pre : String) (cfg : TestConfig) (c : ColumnD) :
    ∀ t ∈ testsRule7 pre cfg c, t.column_name = c.name := by
  simp only [testsRule7]
  split_ifs <;> simp

theorem nameRule8 (pre : String) (cfg : TestConfig) (y : Int) (c : ColumnD) :
    ∀ t ∈ testsRule8 pre cfg y c, t.column_name = c.name := by
  simp only [testsRule8]
  split_ifs <;> simp

theorem nameRule9 (pre : String) (cfg : TestConfig) (c : ColumnD) :
    ∀ t ∈ testsRule9 pre cfg c, t.column_name = c.name := by
  simp only [testsRule9]
  split_ifs <;> simp

theorem nameRule10 (pre : String) (cfg : TestConfig) (c : ColumnD) :
    ∀ t ∈ testsRule10 pre cfg c, t.column_name = c.name := by
  simp only [testsRule10]
  split_ifs <;> simp

theorem nameRule11 (pre : String) (cfg : TestConfig) (c : ColumnD) :
    ∀ t ∈ testsRule11 pre cfg c, t.column_name = c.name := by
  simp only [testsRule11]
  split_ifs <;> simp

theorem nameRule12 (pre : String) (cfg : TestConfig) (c : ColumnD) :
    ∀ t ∈ testsRule12 pre cfg c, t.column_name = c.name := by
  simp only [testsRule12]
  split_ifs <;> simp

theorem nameRule13 (pre : String) (cfg : TestConfig) (c : ColumnD) :
    ∀ t ∈ testsRule13 pre cfg c, t.column_name = c.name := by
  simp only [testsRule13]
  split_ifs <;> simp

theorem nameRule14 (pre : String) (cfg : TestConfig) (c : ColumnD) :
    ∀ t ∈ testsRule14 pre cfg c, t.column_name = c.name := by
  simp only [testsRule14]
  split_ifs <;> simp

theorem nameRule15 (pre : String) (cfg : TestConfig) (c : ColumnD) :
    ∀ t ∈ testsRule15 pre cfg c, t.column_name = c.name := by
  simp only [testsRule15]
  split_ifs <;> simp

/-- Every test produced by the per-column pass targets its own column. -/
theorem memName (tn pre : String) (cfg : TestConfig) (y : Int) (c : ColumnD) :
    ∀ t ∈ testsForColumn tn pre cfg y c, t.column_name = c.name := by
  simp only [testsForColumn, List.forall_mem_append]
  refine ⟨⟨⟨⟨⟨⟨⟨⟨⟨⟨⟨⟨⟨⟨?_, ?_⟩, ?_⟩, ?_⟩, ?_⟩, ?_⟩, ?_⟩, ?_⟩, ?_⟩, ?_⟩, ?_⟩, ?_⟩, ?_⟩, ?_⟩, ?_⟩
  exacts [nameRule1 pre cfg c, nameRule2 tn pre cfg c, nameRule3 pre cfg c, nameRule4 pre cfg c,
    nameRule5 pre cfg c, nameRule6 pre cfg c, nameRule7 pre cfg c, nameRule8 pre cfg y c,
    nameRule9 pre cfg c, nameRule10 pre cfg c, nameRule11 pre cfg c, nameRule12 pre cfg c,
    nameRule13 pre cfg c, nameRule14 pre cfg c, nameRule15 pre cfg c]

theorem cntU1 (pre : String) (cfg : TestConfig) (c : ColumnD) :
    (testsRule1 pre cfg c).countP (fun t => t.type == "unique") =
      if strUpper c.name ∈ pkNames then 1 else 0 := by
  simp only [testsRule1]
  split_ifs <;> simp +decide [List.countP_cons]

theorem cntU2 (tn pre : String) (cfg : TestConfig) (c : ColumnD) :
    (testsRule2 tn pre cfg c).countP (fun t => t.type == "unique") = 0 := by
  simp only [testsRule2]
  split_ifs <;> simp +decide [List.countP_cons]

theorem cntU3 (pre : String) (cfg : TestConfig) (c : ColumnD) :
    (testsRule3 pre cfg c).countP (fun t => t.type == "unique") = 0 := by
  simp only [testsRule3]
  split_ifs <;> simp +decide [List.countP_cons]

theorem cntU4 (pre : String) (cfg : TestConfig) (c : ColumnD) :
    (testsRule4 pre cfg c).countP (fun t => t.type == "unique") = 0 := by
  simp only [testsRule4]
  split_ifs <;> simp +decide [List.countP_cons]

theorem cntU5 (pre : String) (cfg : TestConfig) (c : ColumnD) :
    (testsRule5 pre cfg c).countP (fun t => t.type == "unique") = 0 := by
  simp only [testsRule5]
  split_ifs <;> simp +decide [List.countP_cons]

theorem cntU6 (pre : String) (cfg : TestConfig) (c : ColumnD) :
    (testsRule6 pre cfg c).countP (fun t => t.type == "unique") = 0 := by
  simp only [testsRule6]
  split_ifs <;> simp +decide [List.countP_cons]

theorem cntU7 (pre : String) (cfg : TestConfig) (c : ColumnD) :
    (testsRule7 pre cfg c).countP (fun t => t.type == "unique") = 0 := by
  simp only [testsRule7]
  split_ifs <;> simp +decide [List.countP_cons]

theorem cntU8 (pre : String) (cfg : TestConfig) (y : Int) (c : ColumnD) :
    (testsRule8 pre cfg y c).countP (fun t => t.type == "unique") = 0 := by
  simp only [testsRule8]
  split_ifs <;> simp +decide [List.countP_cons]

theorem cntU9 (pre : String) (cfg : TestConfig) (c : ColumnD) :
    (testsRule9 pre cfg c).countP (fun t => t.type == "unique") = 0 := by
  simp only [testsRule9]
  split_ifs <;> simp +decide [List.countP_cons]

theorem cntU10 (pre : String) (cfg : TestConfig) (c : ColumnD) :
    (testsRule10 pre cfg c).countP (fun t => t.type == "unique") = 0 := by
  simp only [testsRule10]
  split_ifs <;> simp +decide [List.countP_cons]

theorem cntU11 (pre : String) (cfg : TestConfig) (c : ColumnD) :
    (testsRule11 pre cfg c).countP (fun t => t.type == "unique") = 0 := by
  simp only [testsRule11]
  split_ifs <;> simp +decide [List.countP_cons]

theorem cntU12 (pre : String) (cfg : TestConfig) (c : ColumnD) :
    (testsRule12 pre cfg c).countP (fun t => t.type == "unique") = 0 := by
  simp only [testsRule12]
  split_ifs <;> simp +decide [List.countP_cons]

theorem cntU13 (pre : String) (cfg : TestConfig) (c : ColumnD) :
    (testsRule13 pre cfg c).countP (fun t => t.type == "unique") = 0 := by
  simp only [testsRule13]
  split_ifs <;> simp +decide [List.countP_cons]

theorem cntU14 (pre : String) (cfg : TestConfig) (c : ColumnD) :
    (testsRule14 pre cfg c).countP (fun t => t.type == "unique") = 0 := by
  simp only [testsRule14]
  split_ifs <;> simp +decide [List.countP_cons]

theorem cntU15 (pre : String) (cfg : TestConfig) (c : ColumnD) :
    (testsRule15 pre cfg c).countP (fun t => t.type == "unique") = 0 := by
  simp only [testsRule15]
  split_ifs <;> simp +decide [List.countP_cons]

/-- The number of `unique` tests the per-column pass emits for a column is 1
for a primary-key-named column and 0 otherwise. -/
theorem countUniqueTestsFor (tn pre : String) (cfg : TestConfig) (y : Int) (c : ColumnD) :
    (testsForColumn tn pre cfg y c).countP (fun t => t.type == "unique") =
      if strUpper c.name ∈ pkNames then 1 else 0 := by
  simp only [testsForColumn, List.countP_append, cntU1, cntU2, cntU3, cntU4, cntU5, cntU6,
    cntU7, cntU8, cntU9, cntU10, cntU11, cntU12, cntU13, cntU14, cntU15, add_zero]

theorem cntN1 (pre : String) (cfg : TestConfig) (c : ColumnD) :
    (testsRule1 pre cfg c).countP (fun t => t.type == "not_null") =
      if strUpper c.name ∈ pkNames then 1
      else if strEndsWith (strUpper c.name) "_ID" = true ∨
          strUpper c.name ∈ (["UTM_KEY"] : List String) then 1
      else 0 := by
  simp only [testsRule1]
  split_ifs <;> simp +decide [List.countP_cons]

theorem cntN2 (tn pre : String) (cfg : TestConfig) (c : ColumnD) :
    (testsRule2 tn pre cfg c).countP (fun t => t.type == "not_null") =
      if strUpper c.name ∈ timestampCols then 1 else 0 := by
  simp only [testsRule2]
  split_ifs <;> simp +decide [List.countP_cons, List.countP_append]

theorem cntN3 (pre : String) (cfg : TestConfig) (c : ColumnD) :
    (testsRule3 pre cfg c).countP (fun t => t.type == "not_null") =
      if strUpper c.name = "EMAIL" then 1 else 0 := by
  simp only [testsRule3]
  split_ifs <;> simp +decide [List.countP_cons]

theorem cntN4 (pre : String) (cfg : TestConfig) (c : ColumnD) :
    (testsRule4 pre cfg c).countP (fun t => t.type == "not_null") = 0 := by
  simp only [testsRule4]
  split_ifs <;> simp +decide [List.countP_cons]

theorem cntN5 (pre : String) (cfg : TestConfig) (c : ColumnD) :
    (testsRule5 pre cfg c).countP (fun t => t.type == "not_null") = 0 := by
  simp only [testsRule5]
  split_ifs <;> simp +decide [List.countP_cons]

theorem cntN6 (pre : String) (cfg : TestConfig) (c : ColumnD) :
    (testsRule6 pre cfg c).countP (fun t => t.type == "not_null") = 0 := by
  simp only [testsRule6]
  split_ifs <;> simp +decide [List.countP_cons, List.countP_append]

theorem cntN7 (pre : String) (cfg : TestConfig) (c : ColumnD) :
    (testsRule7 pre cfg c).countP (fun t => t.type == "not_null") = 0 := by
  simp only [testsRule7]
  split_ifs <;> simp +decide [List.countP_cons]

theorem cntN8 (pre : String) (cfg : TestConfig) (y : Int) (c : ColumnD) :
    (testsRule8 pre cfg y c).countP (fun t => t.type == "not_null") = 0 := by
  simp only [testsRule8]
  split_ifs <;> simp +decide [List.countP_cons]

theorem cntN9 (pre : String) (cfg : TestConfig) (c : ColumnD) :
    (testsRule9 pre cfg c).countP (fun t => t.type == "not_null") = 0 := by
  simp only [testsRule9]
  split_ifs <;> simp +decide [List.countP_cons]

theorem cntN10 (pre : String) (cfg : TestConfig) (c : ColumnD) :
    (testsRule10 pre cfg c).countP (fun t => t.type == "not_null") = 0 := by
  simp only [testsRule10]
  split_ifs <;> simp +decide [List.countP_cons]

theorem cntN11 (pre : String) (cfg : TestConfig) (c : ColumnD) :
    (testsRule11 pre cfg c).countP (fun t => t.type == "not_null") = 0 := by
  simp only [testsRule11]
  split_ifs <;> simp +decide [List.countP_cons]

theorem cntN12 (pre : String) (cfg : TestConfig) (c : ColumnD) :
    (testsRule12 pre cfg c).countP (fun t => t.type == "not_null") = 0 := by
  simp only [testsRule12]
  split_ifs <;> simp +decide [List.countP_cons]

theorem cntN13 (pre : String) (cfg : TestConfig) (c : ColumnD) :
    (testsRule13 pre cfg c).countP (fun t => t.type == "not_null") = 0 := by
  simp only [testsRule13]
  split_ifs <;> simp +decide [List.countP_cons]

theorem cntN14 (pre : String) (cfg : TestConfig) (c : ColumnD) :
    (testsRule14 pre cfg c).countP (fun t => t.type == "not_null") = 0 := by
  simp only [testsRule14]
  split_ifs <;> simp +decide [List.countP_cons]

theorem cntN15 (pre : String) (cfg : TestConfig) (c : ColumnD) :
    (testsRule15 pre cfg c).countP (fun t => t.type == "not_null") = 0 := by
  simp only [testsRule15]
  split_ifs <;> simp +decide [List.countP_cons]

/-- The number of `not_null` tests the per-column pass emits for a column:
one from the primary-key or foreign-key rule, one more if timestamp-named,
one more if EMAIL. -/
theorem countNotNullTestsFor (tn pre : String) (cfg : TestConfig) (y : Int) (c : ColumnD) :
    (testsForColumn tn pre cfg y c).countP (fun t => t.type == "not_null") =
      (if strUpper c.name ∈ pkNames then 1
        else if strEndsWith (strUpper c.name) "_ID" = true ∨
            strUpper c.name ∈ (["UTM_KEY"] : List String) then 1
        else 0) +
      (if strUpper c.name ∈ timestampCols then 1 else 0) +
      (if strUpper c.name = "EMAIL" then 1 else 0) := by
  simp only [testsForColumn, List.countP_append, cntN1, cntN2, cntN3, cntN4, cntN5, cntN6,
    cntN7, cntN8, cntN9, cntN10, cntN11, cntN12, cntN13, cntN14, cntN15, add_zero]

theorem typeCross1 (cols : List ColumnD) (pre : String) (cfg : TestConfig) :
    ∀ t ∈ crossTest1 cols pre cfg, t.type = "custom_sql" := by
  simp only [crossTest1]
  rcases colIndexFind cols "DATE_ID" with _ | di <;>
    rcases colIndexFind cols "DATE" with _ | d <;> simp

theorem typeCross2 (cols : List ColumnD) (pre : String) (cfg : TestConfig) :
    ∀ t ∈ crossTest2 cols pre cfg, t.type = "custom_sql" := by
  simp only [crossTest2]
  rcases colIndexFind cols "CREATEDAT" with _ | ca <;>
    rcases colIndexFind cols "UPDATEDAT" with _ | ua <;> simp

theorem typeCross3 (cols : List ColumnD) (pre : String) (cfg : TestConfig) :
    ∀ t ∈ crossTest3 cols pre cfg, t.type = "custom_sql" := by
  simp only [crossTest3]
  rcases colIndexFind cols "FIRST_IMPRESSION_DATE" with _ | fi <;>
    rcases colIndexFind cols "LAST_IMPRESSION_DATE" with _ | li <;> simp

theorem typeCross4 (cols : List ColumnD) (pre : String) (cfg : TestConfig) :
    ∀ t ∈ crossTest4 cols pre cfg, t.type = "custom_sql" := by
  simp only [crossTest4]
  rcases colIndexFind cols "DATE" with _ | d <;>
    rcases colIndexFind cols "FIRST_IMPRESSION_DATE" with _ | fi <;>
    rcases colIndexFind cols "LAST_IMPRESSION_DATE" with _ | li <;> simp

theorem typeCross5 (cols : List ColumnD) (pre : String) (cfg : TestConfig) :
    ∀ t ∈ crossTest5 cols pre cfg, t.type = "custom_sql" := by
  simp only [crossTest5]
  rcases colIndexFind cols "CLICKS" with _ | cl <;>
    rcases colIndexFind cols "IMPRESSIONS" with _ | im <;> simp

/-- Every cross-column test is a `custom_sql` test. -/
theorem crossType (cols : List ColumnD) (pre : String) (cfg : TestConfig) :
    ∀ t ∈ crossTests cols pre cfg, t.type = "custom_sql" := by
  simp only [crossTests, List.forall_mem_append]
  exact ⟨⟨⟨⟨typeCross1 cols pre cfg, typeCross2 cols pre cfg⟩, typeCross3 cols pre cfg⟩,
    typeCross4 cols pre cfg⟩, typeCross5 cols pre cfg⟩

/-- Every table-name-gated test is a `custom_sql` test. -/
theorem gatedType (tn : String) (cols : List ColumnD) (pre : String) (cfg : TestConfig) :
    ∀ t ∈ gatedTests tn cols pre cfg, t.type = "custom_sql" := by
  simp only [gatedTests]
  split_ifs <;> simp

/-- A name found by the `col_index` lookup uppercases to the looked-up key. -/
theorem colIndexFindUpper (cols : List ColumnD) (u nm : String)
    (h : colIndexFind cols u = some nm) : strUpper nm = u := by
  simp only [colIndexFind, Option.map_eq_some'] at h
  obtain ⟨e, he, rfl⟩ := h
  have hm : e ∈ cols.filter fun c => strUpper c.name == u := List.mem_of_mem_getLast? he
  have := List.of_mem_filter hm
  simpa using this

theorem flatMapCongr2 {α β : Type} (l : List α) (f g : α → List β)
    (h : ∀ a ∈ l, f a = g a) : l.flatMap f = l.flatMap g := by
  induction l with
  | nil => rfl
  | cons a t ih =>
    simp only [List.flatMap_cons]
    rw [h a (List.mem_cons_self a t), ih (fun b hb => h b (List.mem_cons_of_mem a hb))]

/-- Counting tests of a given type for a given column name over the whole
per-column pass: each column bearing the name contributes `k`, columns with
other names contribute nothing. -/
theorem flatCountMul (tn pre : String) (cfg : TestConfig) (y : Int) (tt nm : String) (k : Nat)
    (hchar : ∀ e : ColumnD, e.name = nm →
      (testsForColumn tn pre cfg y e).countP (fun t => t.type == tt) = k)
    (cols : List ColumnD) :
    ((cols.flatMap fun c => testsForColumn tn pre cfg y c).countP
      (fun t => t.type == tt && t.column_name == nm)) =
      k * (cols.countP fun d => d.name == nm) := by
  induction cols with
  | nil => simp
  | cons d ds ih =>
    simp only [List.flatMap_cons, List.countP_append, List.countP_cons]
    by_cases hd : d.name = nm
    · have h1 : (testsForColumn tn pre cfg y d).countP
          (fun t => t.type == tt && t.column_name == nm) = k := by
        rw [← hchar d hd]
        apply List.countP_congr
        intro t ht
        have hn := memName tn pre cfg y d t ht
        simp [hn, hd]
      rw [h1, ih]
      simp [hd]
      ring
    · have h1 : (testsForColumn tn pre cfg y d).countP
          (fun t => t.type == tt && t.column_name == nm) = 0 := by
        rw [List.countP_eq_zero]
        intro t ht
        have hn := memName tn pre cfg y d t ht
        simp [hn, hd]
      rw [h1, ih]
      simp [hd]

theorem countTypeNameZero (l : List DQTest) (tt nm : String) (htt : tt ≠ "custom_sql")
    (h : ∀ t ∈ l, t.type = "custom_sql") :
    l.countP (fun t => t.type == tt && t.column_name == nm) = 0 := by
  rw [List.countP_eq_zero]
  intro t ht
  simp only [h t ht, Bool.and_eq_true, beq_iff_eq]
  rintro ⟨h1, _⟩
  exact htt h1.symm

theorem pkCharNN (tn pre : String) (cfg : TestConfig) (y : Int) (e : ColumnD)
    (h : strUpper e.name ∈ pkNames) :
    (testsForColumn tn pre cfg y e).countP (fun t => t.type == "not_null") = 1 := by
  rw [countNotNullTestsFor]
  have h4 : strUpper e.name = "ID" ∨ strUpper e.name = "USER_ID" ∨
      strUpper e.name = "DATE_ID" ∨ strUpper e.name = "CAMPAIGN_ID" := by
    simpa [pkNames] using h
  rcases h4 with h|h|h|h <;> rw [h] <;> decide

theorem pkCharUQ (tn pre : String) (cfg : TestConfig) (y : Int) (e : ColumnD)
    (h : strUpper e.name ∈ pkNames) :
    (testsForColumn tn pre cfg y e).countP (fun t => t.type == "unique") = 1 := by
  rw [countUniqueTestsFor, if_pos h]

/-- C1: for a column whose uppercased name is in the fixed primary-key set
{ID, USER_ID, DATE_ID, CAMPAIGN_ID}, and which occurs exactly once in the
column list, `generate_rules_for_table` emits exactly one `not_null` test and
exactly one `unique` test targeting that column (each call only concerns its
own table, so no other table's invocation can add tests for it). -/
theorem pk_columns_emit_one_not_null_one_unique
    (tn : String) (cols : List ColumnD) (pdc : Option String) (cy : Bool) (y : Int) (c : ColumnD)
    (_hc : c ∈ cols) (hpk : strUpper c.name ∈ pkNames)
    (huniq : (cols.countP fun d => d.name == c.name) = 1) :
    ((generate_rules_for_table tn cols pdc cy y).tests.countP
      (fun t => t.type == "not_null" && t.column_name == c.name)) = 1 ∧
    ((generate_rules_for_table tn cols pdc cy y).tests.countP
      (fun t => t.type == "unique" && t.column_name == c.name)) = 1 := by
  constructor
  · simp only [generate_rules_for_table, List.countP_append]
    rw [flatCountMul tn _ _ y "not_null" c.name 1
        (fun e he => pkCharNN tn _ _ y e (by rw [he]; exact hpk)) cols, huniq,
      countTypeNameZero _ _ _ (by decide) (crossType cols _ _),
      countTypeNameZero _ _ _ (by decide) (gatedType tn cols _ _)]
  · simp only [generate_rules_for_table, List.countP_append]
    rw [flatCountMul tn _ _ y "unique" c.name 1
        (fun e he => pkCharUQ tn _ _ y e (by rw [he]; exact hpk)) cols, huniq,
      countTypeNameZero _ _ _ (by decide) (crossType cols _ _),
      countTypeNameZero _ _ _ (by decide) (gatedType tn cols _ _)]

/-- Witness for C1 on a one-column table with primary-key column ID. -/
theorem pk_columns_emit_one_not_null_one_unique_witness :
    ((generate_rules_for_table "DWH.PUBLIC.T" [⟨"ID", "NUMBER(38,0)"⟩] (some "DATE") true
        2025).tests.countP (fun t => t.type == "not_null" && t.column_name == "ID")) = 1 ∧
    ((generate_rules_for_table "DWH.PUBLIC.T" [⟨"ID", "NUMBER(38,0)"⟩] (some "DATE") true
        2025).tests.countP (fun t => t.type == "unique" && t.column_name == "ID")) = 1 :=
  pk_columns_emit_one_not_null_one_unique "DWH.PUBLIC.T" [⟨"ID", "NUMBER(38,0)"⟩] (some "DATE")
    true 2025 ⟨"ID", "NUMBER(38,0)"⟩ (by decide) (by decide) (by decide)

/-- C9: the foreign-key branch of Rule 1 fires — emitting exactly the single
foreign-key `not_null` test and nothing else — precisely when the uppercased
name ends in "_ID" or is UTM_KEY and is not already in the primary-key set;
and a column that is not primary-key-named never receives any `unique` test
anywhere in the generated list. -/
theorem foreign_key_rule_iff_id_suffix_and_not_primary_key
    (tn : String) (cols : List ColumnD) (pdc : Option String) (cy : Bool) (y : Int)
    (pre : String) (cfg : TestConfig) (c : ColumnD) :
    (testsRule1 pre cfg c =
      [⟨"not_null", c.name, pre ++ ": Foreign key \x27" ++ c.name ++ "\x27 should not be NULL.",
        cfg⟩] ↔
      ((strEndsWith (strUpper c.name) "_ID" = true ∨ strUpper c.name = "UTM_KEY") ∧
        strUpper c.name ∉ pkNames)) ∧
    (strUpper c.name ∉ pkNames →
      ((generate_rules_for_table tn cols pdc cy y).tests.countP
        (fun t => t.type == "unique" && t.column_name == c.name)) = 0) := by
  constructor
  · by_cases hpk : strUpper c.name ∈ pkNames
    · simp only [testsRule1, if_pos hpk]
      constructor
      · intro hcontra; simp at hcontra
      · rintro ⟨_, hnpk⟩; exact absurd hpk hnpk
    · by_cases hfk : strEndsWith (strUpper c.name) "_ID" = true ∨
          strUpper c.name ∈ (["UTM_KEY"] : List String)
      · simp only [testsRule1, if_neg hpk, if_pos hfk]
        exact ⟨fun _ => ⟨by simpa using hfk, hpk⟩, fun _ => trivial⟩
      · simp only [testsRule1, if_neg hpk, if_neg hfk]
        constructor
        · intro hcontra; simp at hcontra
        · rintro ⟨hab, _⟩; exact absurd (by simpa using hab) hfk
  · intro hnpk
    simp only [generate_rules_for_table, List.countP_append]
    rw [flatCountMul tn _ _ y "unique" c.name 0
        (fun e he => by rw [countUniqueTestsFor, if_neg (by rw [he]; exact hnpk)]) cols,
      countTypeNameZero _ _ _ (by decide) (crossType cols _ _),
      countTypeNameZero _ _ _ (by decide) (gatedType tn cols _ _)]
    simp

/-- Witness for C9 on a foreign-key-named column GAME_ID. -/
theorem foreign_key_rule_iff_id_suffix_and_not_primary_key_witness :
    testsRule1 "P" ⟨none, false, none, none⟩ ⟨"GAME_ID", "NUMBER"⟩ =
      [⟨"not_null", "GAME_ID", "P" ++ ": Foreign key \x27" ++ "GAME_ID" ++
        "\x27 should not be NULL.", ⟨none, false, none, none⟩⟩] :=
  (foreign_key_rule_iff_id_suffix_and_not_primary_key "T" [⟨"GAME_ID", "NUMBER"⟩] none false
    2025 "P" ⟨none, false, none, none⟩ ⟨"GAME_ID", "NUMBER"⟩).1.mpr (by decide)

/-- The three window-relevant configuration fields a test inherits unchanged
from the per-table base configuration. -/
def inheritsCfg (cfg : TestConfig) (t : DQTest) : Prop :=
  t.config.date_window_col = cfg.date_window_col ∧
  t.config.check_yesterday_only = cfg.check_yesterday_only ∧
  t.config.time_window_days = cfg.time_window_days

theorem cfgRule1 (pre : String) (cfg : TestConfig) (c : ColumnD) :
    ∀ t ∈ testsRule1 pre cfg c, inheritsCfg cfg t := by
  simp only [testsRule1]
  split_ifs <;> simp [inheritsCfg, withSql]

theorem cfgRule2 (tn pre : String) (cfg : TestConfig) (c : ColumnD) :
    ∀ t ∈ testsRule2 tn pre cfg c, inheritsCfg cfg t := by
  simp only [testsRule2]
  split_ifs <;> simp [inheritsCfg, withSql]

theorem cfgRule3 (pre : String) (cfg : TestConfig) (c : ColumnD) :
    ∀ t ∈ testsRule3 pre cfg c, inheritsCfg cfg t := by
  simp only [testsRule3]
  split_ifs <;> simp [inheritsCfg, withSql]

theorem cfgRule4 (pre : String) (cfg : TestConfig) (c : ColumnD) :
    ∀ t ∈ testsRule4 pre cfg c, inheritsCfg cfg t := by
  simp only [testsRule4]
  split_ifs <;> simp [inheritsCfg, withSql]

theorem cfgRule5 (pre : String) (cfg : TestConfig) (c : ColumnD) :
    ∀ t ∈ testsRule5 pre cfg c, inheritsCfg cfg t := by
  simp only [testsRule5]
  split_ifs <;> simp [inheritsCfg, withSql]

theorem cfgRule6 (pre : String) (cfg : TestConfig) (c : ColumnD) :
    ∀ t ∈ testsRule6 pre cfg c, inheritsCfg cfg t := by
  simp only [testsRule6]
  split_ifs <;> simp [inheritsCfg, withSql]

theorem cfgRule7 (pre : String) (cfg : TestConfig) (c : ColumnD) :
    ∀ t ∈ testsRule7 pre cfg c, inheritsCfg cfg t := by
  simp only [testsRule7]
  split_ifs <;> simp [inheritsCfg, withSql]

theorem cfgRule8 (pre : String) (cfg : TestConfig) (y : Int) (c : ColumnD) :
    ∀ t ∈ testsRule8 pre cfg y c, inheritsCfg cfg t := by
  simp only [testsRule8]
  split_ifs <;> simp [inheritsCfg, withSql]

theorem cfgRule9 (pre : String) (cfg : TestConfig) (c : ColumnD) :
    ∀ t ∈ testsRule9 pre cfg c, inheritsCfg cfg t := by
  simp only [testsRule9]
  split_ifs <;> simp [inheritsCfg, withSql]

theorem cfgRule10 (pre : String) (cfg : TestConfig) (c : ColumnD) :
    ∀ t ∈ testsRule10 pre cfg c, inheritsCfg cfg t := by
  simp only [testsRule10]
  split_ifs <;> simp [inheritsCfg, withSql]

theorem cfgRule11 (pre : String) (cfg : TestConfig) (c : ColumnD) :
    ∀ t ∈ testsRule11 pre cfg c, inheritsCfg cfg t := by
  simp only [testsRule11]
  split_ifs <;> simp [inheritsCfg, withSql]

theorem cfgRule12 (pre : String) (cfg : TestConfig) (c : ColumnD) :
    ∀ t ∈ testsRule12 pre cfg c, inheritsCfg cfg t := by
  simp only [testsRule12]
  split_ifs <;> simp [inheritsCfg, withSql]

theorem cfgRule13 (pre : String) (cfg : TestConfig) (c : ColumnD) :
    ∀ t ∈ testsRule13 pre cfg c, inheritsCfg cfg t := by
  simp only [testsRule13]
  split_ifs <;> simp [inheritsCfg, withSql]

theorem cfgRule14 (pre : String) (cfg : TestConfig) (c : ColumnD) :
    ∀ t ∈ testsRule14 pre cfg c, inheritsCfg cfg t := by
  simp only [testsRule14]
  split_ifs <;> simp [inheritsCfg, withSql]

theorem cfgRule15 (pre : String) (cfg : TestConfig) (c : ColumnD) :
    ∀ t ∈ testsRule15 pre cfg c, inheritsCfg cfg t := by
  simp only [testsRule15]
  split_ifs <;> simp [inheritsCfg, withSql]

theorem cfgTestsFor (tn pre : String) (cfg : TestConfig) (y : Int) (c : ColumnD) :
    ∀ t ∈ testsForColumn tn pre cfg y c, inheritsCfg cfg t := by
  simp only [testsForColumn, List.forall_mem_append]
  refine ⟨⟨⟨⟨⟨⟨⟨⟨⟨⟨⟨⟨⟨⟨?_, ?_⟩, ?_⟩, ?_⟩, ?_⟩, ?_⟩, ?_⟩, ?_⟩, ?_⟩, ?_⟩, ?_⟩, ?_⟩, ?_⟩, ?_⟩, ?_⟩
  exacts [cfgRule1 pre cfg c, cfgRule2 tn pre cfg c, cfgRule3 pre cfg c, cfgRule4 pre cfg c,
    cfgRule5 pre cfg c, cfgRule6 pre cfg c, cfgRule7 pre cfg c, cfgRule8 pre cfg y c,
    cfgRule9 pre cfg c, cfgRule10 pre cfg c, cfgRule11 pre cfg c, cfgRule12 pre cfg c,
    cfgRule13 pre cfg c, cfgRule14 pre cfg c, cfgRule15 pre cfg c]

theorem cfgCross1 (cols : List ColumnD) (pre : String) (cfg : TestConfig) :
    ∀ t ∈ crossTest1 cols pre cfg, inheritsCfg cfg t := by
  simp only [crossTest1]
  rcases colIndexFind cols "DATE_ID" with _ | di <;>
    rcases colIndexFind cols "DATE" with _ | d <;> simp [inheritsCfg, withSql]

theorem cfgCross2 (cols : List ColumnD) (pre : String) (cfg : TestConfig) :
    ∀ t ∈ crossTest2 cols pre cfg, inheritsCfg cfg t := by
  simp only [crossTest2]
  rcases colIndexFind cols "CREATEDAT" with _ | ca <;>
    rcases colIndexFind cols "UPDATEDAT" with _ | ua <;> simp [inheritsCfg, withSql]

theorem cfgCross3 (cols : List ColumnD) (pre : String) (cfg : TestConfig) :
    ∀ t ∈ crossTest3 cols pre cfg, inheritsCfg cfg t := by
  simp only [crossTest3]
  rcases colIndexFind cols "FIRST_IMPRESSION_DATE" with _ | fi <;>
    rcases colIndexFind cols "LAST_IMPRESSION_DATE" with _ | li <;> simp [inheritsCfg, withSql]

theorem cfgCross4 (cols : List ColumnD) (pre : String) (cfg : TestConfig) :
    ∀ t ∈ crossTest4 cols pre cfg, inheritsCfg cfg t := by
  simp only [crossTest4]
  rcases colIndexFind cols "DATE" with _ | d <;>
    rcases colIndexFind cols "FIRST_IMPRESSION_DATE" with _ | fi <;>
    rcases colIndexFind cols "LAST_IMPRESSION_DATE" with _ | li <;> simp [inheritsCfg, withSql]

theorem cfgCross5 (cols : List ColumnD) (pre : String) (cfg : TestConfig) :
    ∀ t ∈ crossTest5 cols pre cfg, inheritsCfg cfg t := by
  simp only [crossTest5]
  rcases colIndexFind cols "CLICKS" with _ | cl <;>
    rcases colIndexFind cols "IMPRESSIONS" with _ | im <;> simp [inheritsCfg, withSql]

theorem cfgCross (cols : List ColumnD) (pre : String) (cfg : TestConfig) :
    ∀ t ∈ crossTests cols pre cfg, inheritsCfg cfg t := by
  simp only [crossTests, List.forall_mem_append]
  exact ⟨⟨⟨⟨cfgCross1 cols pre cfg, cfgCross2 cols pre cfg⟩, cfgCross3 cols pre cfg⟩,
    cfgCross4 cols pre cfg⟩, cfgCross5 cols pre cfg⟩

theorem cfgGated (tn : String) (cols : List ColumnD) (pre : String) (cfg : TestConfig) :
    ∀ t ∈ gatedTests tn cols pre cfg, inheritsCfg cfg t := by
  simp only [gatedTests]
  split_ifs <;> simp [inheritsCfg, withSql]

/-- C6: every emitted test carries the table's primary time column and the
check_yesterday_only flag in its configuration, never a trailing-days count;
consequently its compiled time filter is empty when no primary time column is
configured, the previous-calendar-day filter when check_yesterday_only is
set, and empty otherwise (the trailing-days filter would require a positive
day count, which the generator never supplies). -/
theorem specs_inherit_time_window_from_primary_time_column
    (tn : String) (cols : List ColumnD) (pdc : Option String) (cy : Bool) (y : Int) :
    (∀ t ∈ (generate_rules_for_table tn cols pdc cy y).tests,
      t.config.date_window_col = pdc ∧ t.config.check_yesterday_only = cy ∧
      t.config.time_window_days = none ∧
      windowFilterContent t.config =
        (match pdc with
         | none => ""
         | some d => if d = "" then "" else if cy then
             quoteIdent d ++ " >= CURRENT_DATE - INTERVAL \x271 DAY\x27 AND " ++ quoteIdent d ++
               " < CURRENT_DATE"
           else "")) ∧
    (∀ cfg2 : TestConfig, cfg2.check_yesterday_only = false → windowFilterContent cfg2 ≠ "" →
      ∃ d nd, cfg2.date_window_col = some d ∧ d ≠ "" ∧ cfg2.time_window_days = some nd ∧
        0 < nd ∧ windowFilterContent cfg2 =
          quoteIdent d ++ " >= CURRENT_DATE - INTERVAL \x27" ++ toString nd ++ " DAY\x27") := by
  constructor
  · intro t ht
    have hinh : inheritsCfg (⟨pdc, cy, none, none⟩ : TestConfig) t := by
      simp only [generate_rules_for_table, List.mem_append] at ht
      rcases ht with (h | h) | h
      · exact cfgTestsFor tn _ _ y _ t (List.mem_flatMap.mp h).choose_spec.2
      · exact cfgCross cols _ _ t h
      · exact cfgGated tn cols _ _ t h
    obtain ⟨h1, h2, h3⟩ := hinh
    refine ⟨h1, h2, h3, ?_⟩
    cases pdc <;> simp [windowFilterContent, h1, h2, h3]
  · intro cfg2 hcy hne
    rcases hcd : cfg2.date_window_col with _ | d
    · exact absurd (by simp [windowFilterContent, hcd]) hne
    · by_cases hde : d = ""
      · exact absurd (by simp [windowFilterContent, hcd, hde]) hne
      · rcases htd : cfg2.time_window_days with _ | nd
        · exact absurd (by simp [windowFilterContent, hcd, hde, hcy, htd]) hne
        · by_cases hnd : 0 < nd
          · exact ⟨d, nd, rfl, hde, rfl, hnd,
              by simp [windowFilterContent, hcd, hde, hcy, htd, hnd]⟩
          · exact absurd (by simp [windowFilterContent, hcd, hde, hcy, htd, hnd]) hne

/-- Witness for C6: the primary-key not_null test of a concrete table
inherits the yesterday-only window. -/
theorem specs_inherit_time_window_from_primary_time_column_witness :
    (⟨"not_null", "ID", descPreBase (some "DATE") true ++ ": Primary key \x27ID\x27 should not be NULL.",
      (⟨some "DATE", true, none, none⟩ : TestConfig)⟩ : DQTest).config.date_window_col =
        some "DATE" ∧
    windowFilterContent (⟨some "DATE", true, none, none⟩ : TestConfig) =
      quoteIdent "DATE" ++ " >= CURRENT_DATE - INTERVAL \x271 DAY\x27 AND " ++ quoteIdent "DATE" ++
        " < CURRENT_DATE" := by
  have h := (specs_inherit_time_window_from_primary_time_column "DWH.PUBLIC.T"
    [⟨"ID", "NUMBER(38,0)"⟩] (some "DATE") true 2025).1
    ⟨"not_null", "ID", descPreBase (some "DATE") true ++ ": Primary key \x27ID\x27 should not be NULL.",
      ⟨some "DATE", true, none, none⟩⟩ (by decide)
  exact ⟨h.1, by simpa using h.2.2.2⟩

theorem rule8YearInv (pre : String) (cfg : TestConfig) (y1 y2 : Int) (c : ColumnD)
    (h : ¬(strUpper c.name = "YEAR" ∧ isNumericType c.type = true)) :
    testsRule8 pre cfg y1 c = testsRule8 pre cfg y2 c := by
  simp only [testsRule8]
  split_ifs with h1 h2 h3 h4 h5 <;> try rfl
  exact absurd ⟨h5, h1⟩ h

theorem testsForColumnYearInv (tn pre : String) (cfg : TestConfig) (y1 y2 : Int) (c : ColumnD)
    (h : ¬(strUpper c.name = "YEAR" ∧ isNumericType c.type = true)) :
    testsForColumn tn pre cfg y1 c = testsForColumn tn pre cfg y2 c := by
  unfold testsForColumn
  rw [rule8YearInv pre cfg y1 y2 c h]

/-- C8 counterexample: on a table with a numeric YEAR column, two calls that
are identical in table name, column list, primary date column and
check_yesterday_only flag but observe different wall-clock years produce
different test lists (the YEAR range rule embeds the observed year in its
condition and description), so the output is not a function of the four
listed arguments alone. -/
theorem generate_rules_depends_on_observed_year_counterexample :
    generate_rules_for_table "DWH.PUBLIC.T" [⟨"YEAR", "NUMBER(38,0)"⟩] (some "DATE") false 2024 ≠
    generate_rules_for_table "DWH.PUBLIC.T" [⟨"YEAR", "NUMBER(38,0)"⟩] (some "DATE") false 2025 := by
  decide

/-- C8 (amended): calling `generate_rules_for_table` twice with the same
table name, column list, primary date column and check_yesterday_only flag
yields identical test lists whenever no numeric YEAR column is present, even
if the two calls observe different current years; with a numeric YEAR column
the lists agree exactly when the observed year is the same. -/
theorem generate_rules_year_invariant_without_numeric_year_column
    (tn : String) (cols : List ColumnD) (pdc : Option String) (cy : Bool)
    (h : ∀ c ∈ cols, ¬(strUpper c.name = "YEAR" ∧ isNumericType c.type = true)) (y1 y2 : Int) :
    generate_rules_for_table tn cols pdc cy y1 = generate_rules_for_table tn cols pdc cy y2 := by
  simp only [generate_rules_for_table]
  rw [flatMapCongr2 cols _ _ (fun c hc => testsForColumnYearInv tn _ _ y1 y2 c (h c hc))]

/-- Witness for the amended C8 on a YEAR-free table across different years. -/
theorem generate_rules_year_invariant_without_numeric_year_column_witness :
    generate_rules_for_table "T" [⟨"ID", "NUMBER(38,0)"⟩] none false 2024 =
    generate_rules_for_table "T" [⟨"ID", "NUMBER(38,0)"⟩] none false 2030 :=
  generate_rules_year_invariant_without_numeric_year_column "T" [⟨"ID", "NUMBER(38,0)"⟩] none
    false (by decide) 2024 2030

/-- Characterization of the per-column pass on a timestamp-named column: the
`not_null` test, then the future-date test unless the table name contains
DIM_DATES, then the VARIANT test when the declared type is VARIANT. -/
theorem tsChar (tn pre : String) (cfg : TestConfig) (y : Int) (c : ColumnD)
    (h : strUpper c.name ∈ timestampCols) :
    testsForColumn tn pre cfg y c =
      [⟨"not_null", c.name, pre ++ ": Timestamp column \x27" ++ c.name ++ "\x27 should not be NULL.",
        cfg⟩] ++
      (if strContains (strUpper tn) "DIM_DATES" = false then
        [⟨"custom_sql", c.name, pre ++ ": Timestamp \x27" ++ c.name ++ "\x27 should not be in the future.",
          withSql cfg (futureSqlFor c.name)⟩]
      else []) ++
      (if isVariantType c.type = true then
        [⟨"custom_sql", c.name, pre ++ ": VARIANT field \x27" ++ c.name ++ "\x27 should contain valid JSON.",
          withSql cfg (tryParseSqlFor c.name)⟩]
      else []) := by
  have h10 : strUpper c.name = "CREATEDAT" ∨ strUpper c.name = "UPDATEDAT" ∨
      strUpper c.name = "DATE" ∨ strUpper c.name = "INSTALL_DATE" ∨
      strUpper c.name = "FIRST_ACTIVE" ∨ strUpper c.name = "LAST_ACTIVE" ∨
      strUpper c.name = "SUB_START_DATE" ∨ strUpper c.name = "FIRST_IMPRESSION_DATE" ∨
      strUpper c.name = "LAST_IMPRESSION_DATE" ∨ strUpper c.name = "FIRST_BUFF_PLAY_ACTIVITY" := by
    simpa [timestampCols] using h
  rcases h10 with h|h|h|h|h|h|h|h|h|h <;>
  · simp +decide [testsForColumn, testsRule1, testsRule2, testsRule3, testsRule4, testsRule5,
      testsRule6, testsRule7, testsRule8, testsRule9, testsRule10, testsRule11, testsRule12,
      testsRule13, testsRule14, testsRule15, h]

theorem tryParseNeFuture (n : String) : tryParseSqlFor n ≠ futureSqlFor n := by
  intro h
  have h2 := congrArg String.data h
  simp [tryParseSqlFor, futureSqlFor, String.data_append] at h2

theorem gtColNeFuture (a b : String) :
    ("\"" ++ a ++ "\" > \"" ++ b ++ "\" AND \"" ++ a ++ "\" IS NOT NULL AND \"" ++ b ++
      "\" IS NOT NULL") ≠ futureSqlFor a := by
  intro h
  have h2 := congrArg String.data h
  simp [futureSqlFor, String.data_append] at h2

theorem parenNeFuture (d fi li : String) :
    ("(\"" ++ d ++ "\" < \"" ++ fi ++ "\" OR \"" ++ d ++ "\" > \"" ++ li ++
      "\") AND \"" ++ d ++ "\" IS NOT NULL") ≠ futureSqlFor d := by
  intro h
  have h2 := congrArg String.data h
  simp [futureSqlFor, String.data_append] at h2

/-- On a DIM_DATES table, no per-column test of a timestamp-named column
carries the future-date condition. -/
theorem tsNoFuture (tn pre : String) (cfg : TestConfig) (y : Int) (c : ColumnD)
    (hcfg : cfg.sql = none)
    (hdim : strContains (strUpper tn) "DIM_DATES" = true)
    (h : strUpper c.name ∈ timestampCols) :
    ∀ t ∈ testsForColumn tn pre cfg y c, t.config.sql ≠ some (futureSqlFor c.name) := by
  rw [tsChar tn pre cfg y c h]
  intro t ht
  by_cases hv : isVariantType c.type = true
  · simp [hdim, hv] at ht
    rcases ht with rfl | rfl
    · simp [hcfg]
    · simp only [withSql, Option.some.injEq, ne_eq]
      exact fun heq => tryParseNeFuture c.name heq
  · simp [hdim, hv] at ht
    subst ht
    simp [hcfg]

/-- No cross-column test carrying a timestamp-named target column has the
future-date condition as its fragment. -/
theorem crossNoFuture (cols : List ColumnD) (pre : String) (cfg : TestConfig) (c : ColumnD)
    (hts : strUpper c.name ∈ timestampCols) :
    ∀ t ∈ crossTests cols pre cfg, t.column_name = c.name →
      t.config.sql ≠ some (futureSqlFor c.name) := by
  intro t ht hnm
  simp only [crossTests, List.mem_append] at ht
  rcases ht with (((h | h) | h) | h) | h
  · revert h
    simp only [crossTest1]
    rcases hdi : colIndexFind cols "DATE_ID" with _ | di <;>
      rcases hd : colIndexFind cols "DATE" with _ | d <;> intro h <;> simp at h
    subst h
    have hu := colIndexFindUpper cols "DATE_ID" di hdi
    have hnm2 : di = c.name := hnm
    rw [hnm2] at hu
    rw [hu] at hts
    exact absurd hts (by decide)
  · revert h
    simp only [crossTest2]
    rcases hca : colIndexFind cols "CREATEDAT" with _ | ca <;>
      rcases hua : colIndexFind cols "UPDATEDAT" with _ | ua <;> intro h <;> simp at h
    subst h
    simp only [withSql, Option.some.injEq, ne_eq]
    intro heq
    rw [← hnm] at heq
    exact gtColNeFuture ca ua heq
  · revert h
    simp only [crossTest3]
    rcases hfi : colIndexFind cols "FIRST_IMPRESSION_DATE" with _ | fi <;>
      rcases hli : colIndexFind cols "LAST_IMPRESSION_DATE" with _ | li <;> intro h <;> simp at h
    subst h
    simp only [withSql, Option.some.injEq, ne_eq]
    intro heq
    rw [← hnm] at heq
    exact gtColNeFuture fi li heq
  · revert h
    simp only [crossTest4]
    rcases hd : colIndexFind cols "DATE" with _ | d <;>
      rcases hfi : colIndexFind cols "FIRST_IMPRESSION_DATE" with _ | fi <;>
      rcases hli : colIndexFind cols "LAST_IMPRESSION_DATE" with _ | li <;> intro h <;> simp at h
    subst h
    simp only [withSql, Option.some.injEq, ne_eq]
    intro heq
    rw [← hnm] at heq
    exact parenNeFuture d fi li heq
  · revert h
    simp only [crossTest5]
    rcases hcl : colIndexFind cols "CLICKS" with _ | cl <;>
      rcases him : colIndexFind cols "IMPRESSIONS" with _ | im <;> intro h <;> simp at h
    subst h
    have hu := colIndexFindUpper cols "CLICKS" cl hcl
    have hnm2 : cl = c.name := hnm
    rw [hnm2] at hu
    rw [hu] at hts
    exact absurd hts (by decide)

theorem gatedName (tn : String) (cols : List ColumnD) (pre : String) (cfg : TestConfig) :
    ∀ t ∈ gatedTests tn cols pre cfg, t.column_name = "isConfirmedEmail,email" ∨
      t.column_name = "IS_ACTIVE_SUB_IND,NUMBER_OF_ACTIVE_SUBSCRIPTIONS" := by
  simp only [gatedTests]
  split_ifs <;> simp

/-- No table-name-gated test targets a timestamp-named column. -/
theorem gatedNoName (tn : String) (cols : List ColumnD) (pre : String) (cfg : TestConfig)
    (c : ColumnD) (hts : strUpper c.name ∈ timestampCols) :
    ∀ t ∈ gatedTests tn cols pre cfg, t.column_name ≠ c.name := by
  intro t ht hnm
  rcases gatedName tn cols pre cfg t ht with h | h <;> rw [h] at hnm <;> rw [← hnm] at hts <;>
    exact absurd hts (by decide)

/-- C7: on a table whose (uppercased) name contains DIM_DATES, no test of
the generated list carries the future-date condition for a timestamp-named
column, while the timestamp `not_null` test is still emitted. -/
theorem dim_dates_suppresses_future_date_rule
    (tn : String) (cols : List ColumnD) (pdc : Option String) (cy : Bool) (y : Int) (c : ColumnD)
    (hdim : strContains (strUpper tn) "DIM_DATES" = true)
    (hc : c ∈ cols) (hts : strUpper c.name ∈ timestampCols) :
    (∀ t ∈ (generate_rules_for_table tn cols pdc cy y).tests,
      t.column_name = c.name → t.config.sql ≠ some (futureSqlFor c.name)) ∧
    ((⟨"not_null", c.name, descPreBase pdc cy ++ ": Timestamp column \x27" ++ c.name ++
      "\x27 should not be NULL.", ⟨pdc, cy, none, none⟩⟩ : DQTest) ∈
      (generate_rules_for_table tn cols pdc cy y).tests) := by
  constructor
  · intro t ht hnm
    simp only [generate_rules_for_table, List.mem_append] at ht
    rcases ht with (h | h) | h
    · obtain ⟨d, hd, hmem⟩ := List.mem_flatMap.mp h
      have hname := memName tn _ _ y d t hmem
      have hdc : d.name = c.name := by rw [← hname]; exact hnm
      have htsd : strUpper d.name ∈ timestampCols := by rw [hdc]; exact hts
      have hnf := tsNoFuture tn _ _ y d rfl hdim htsd t hmem
      rw [hdc] at hnf
      exact hnf
    · exact crossNoFuture cols _ _ c hts t h hnm
    · exact absurd hnm (gatedNoName tn cols _ _ c hts t h)
  · simp only [generate_rules_for_table, List.mem_append]
    left; left
    refine List.mem_flatMap.mpr ⟨c, hc, ?_⟩
    rw [tsChar tn _ _ y c hts]
    simp [hdim]

/-- Witness for C7 on a DIM_DATES table with a DATE column. -/
theorem dim_dates_suppresses_future_date_rule_witness :
    (⟨"not_null", "DATE", descPreBase (some "DATE") true ++ ": Timestamp column \x27" ++ "DATE" ++
      "\x27 should not be NULL.", ⟨some "DATE", true, none, none⟩⟩ : DQTest) ∈
      (generate_rules_for_table "DWH.PUBLIC.DIM_DATES" [⟨"DATE", "DATE"⟩] (some "DATE") true
        2025).tests :=
  (dim_dates_suppresses_future_date_rule "DWH.PUBLIC.DIM_DATES" [⟨"DATE", "DATE"⟩] (some "DATE")
    true 2025 ⟨"DATE", "DATE"⟩ (by decide) (by decide) (by decide)).2
